import Mathlib

/-!
# Verification of the household-management API invariant/workflow layer

Shallow embedding of the repository `wware/household` (`src/server/`):
the SQLite tables become lists of row structures, each FastAPI endpoint
becomes a pure function from the database state (plus request data and the
current timestamp) to a new state and a response, and the `get_db` context
manager of `src/server/database.py` becomes an explicit commit/rollback
wrapper.  Timestamps and dates are modelled as naturals ordered
chronologically (SQLite stores them as ISO-8601 text, whose lexicographic
order is chronological).
-/

namespace Household

/-! ## Data model: rows of the SQLite tables -/

/-- A row of the `stores` table. -/
structure StoreRow where
  id : Nat
  name : String
  created_at : Nat
  updated_at : Nat
  deriving Repr, DecidableEq

/-- A row of the `items` table.  `section_` stands for the `section` column
(`section` is a Lean keyword). -/
structure ItemRow where
  id : Nat
  name : String
  default_quantity : Option String
  quantity_is_int : Bool
  section_ : Option String
  created_at : Nat
  updated_at : Nat
  deriving Repr, DecidableEq

/-- A row of the `item_stores` association table. -/
structure ItemStoreRow where
  item_id : Nat
  store_id : Nat
  deriving Repr, DecidableEq

/-- A row of the `grocery_items` table. -/
structure GroceryItemRow where
  id : Nat
  item_id : Nat
  user_id : Nat
  quantity : Option String
  int_quantity : Option Int
  purchased : Bool
  created_at : Nat
  updated_at : Nat
  deriving Repr, DecidableEq

/-- A row of the `grocery_templates` table. -/
structure GroceryTemplateRow where
  id : Nat
  name : String
  is_default : Bool
  user_id : Nat
  created_at : Nat
  updated_at : Nat
  deriving Repr, DecidableEq

/-- A row of the `grocery_template_items` table. -/
structure GroceryTemplateItemRow where
  id : Nat
  template_id : Nat
  item_id : Nat
  quantity : Option String
  created_at : Nat
  deriving Repr, DecidableEq

/-- A row of the `providers` table. -/
structure ProviderRow where
  id : Nat
  name : String
  phone : Option String
  email : Option String
  website : Option String
  address : Option String
  info : Option String
  created_at : Nat
  updated_at : Nat
  deriving Repr, DecidableEq

/-- A row of the `appointments` table.  `type_` stands for the `type`
column (`type` is a Lean keyword). -/
structure AppointmentRow where
  id : Nat
  title : String
  date : Nat
  type_ : String
  notes : Option String
  provider_id : Option Nat
  patient_name : Option String
  created_by : Nat
  created_at : Nat
  updated_at : Nat
  deriving Repr, DecidableEq

/-- A row of the `tasks` table. -/
structure TaskRow where
  id : Nat
  title : String
  category : String
  completed : Bool
  due_date : Option Nat
  assigned_to : Option Nat
  created_at : Nat
  updated_at : Nat
  deriving Repr, DecidableEq

/-- The database state: one list per table.  The routers only ever read the
`id` column of `users`, so users are modelled by their ids. -/
structure DB where
  users : List Nat
  stores : List StoreRow
  items : List ItemRow
  item_stores : List ItemStoreRow
  grocery_items : List GroceryItemRow
  grocery_templates : List GroceryTemplateRow
  grocery_template_items : List GroceryTemplateItemRow
  providers : List ProviderRow
  appointments : List AppointmentRow
  tasks : List TaskRow
  deriving Repr, DecidableEq

/-- Errors raised by the routers (`HTTPException` with status 404 / 409).
`internalError` models a non-HTTP Python exception (e.g. subscripting a
missing row), which also rolls the transaction back. -/
inductive ApiError where
  | notFound (detail : String)
  | conflict (detail : String)
  | internalError
  deriving Repr, DecidableEq

/-- SQLite assigns a fresh rowid larger than every existing one. -/
def freshId (ids : List Nat) : Nat := ids.foldr max 0 + 1

/-- The `get_db` context manager of `src/server/database.py`: commits the
new state on success and rolls back to the entry state on any exception. -/
def get_db {α : Type} (body : Except ApiError (DB × α)) (db : DB) :
    DB × Except ApiError α :=
  match body with
  | .ok (db2, a) => (db2, .ok a)
  | .error e => (db, .error e)

/-! ## Python semantics helpers -/

/-- Python truthiness of an optional string: `None` and `""` are falsy. -/
def pyTruthy : Option String → Bool
  | none => false
  | some s => s != ""

/-- Python `a or b` on optional strings (`quantity or default_quantity`). -/
def strOr (a b : Option String) : Option String :=
  if pyTruthy a then a else b

/-- Value of a decimal digit character. -/
def digitVal (c : Char) : Nat := c.toNat - 48

/-- Digits of a Python integer literal after the first one: decimal digits
with single underscores allowed between digits. -/
def parseDigitsAux : Nat → List Char → Option Nat
  | acc, [] => some acc
  | acc, '_' :: c :: cs =>
      if c.isDigit then parseDigitsAux (acc * 10 + digitVal c) cs else none
  | _, ['_'] => none
  | acc, c :: cs =>
      if c.isDigit then parseDigitsAux (acc * 10 + digitVal c) cs else none

/-- A nonempty run of decimal digits (Python `digitpart`), leading
underscore not allowed. -/
def parseDigitpart (cs : List Char) : Option Nat :=
  match cs with
  | [] => none
  | c :: rest => if c.isDigit then parseDigitsAux (digitVal c) rest else none

/-- Strip leading and trailing whitespace, as Python `int` does. -/
def pyStrip (s : List Char) : List Char :=
  ((s.dropWhile Char.isWhitespace).reverse.dropWhile Char.isWhitespace).reverse

/-- Python `int(s)` on a string: optional surrounding whitespace, optional
sign, decimal digits; `none` models a raised `ValueError`. -/
def pyInt (s : String) : Option Int :=
  match pyStrip s.toList with
  | '-' :: rest => (parseDigitpart rest).map (fun n => -(n : Int))
  | '+' :: rest => (parseDigitpart rest).map (fun n => (n : Int))
  | cs => (parseDigitpart cs).map (fun n => (n : Int))

/-! ## Template engine (`src/server/routers/templates.py`) -/

/-- Request body of `POST /api/grocery-templates` (`GroceryTemplateCreate`). -/
structure GroceryTemplateCreate where
  name : String
  is_default : Bool
  user_id : Nat
  deriving Repr, DecidableEq

/-- Request body of `PUT /api/grocery-templates/{id}`
(`GroceryTemplateUpdate`); `none` means the field was not supplied. -/
structure GroceryTemplateUpdate where
  name : Option String
  is_default : Option Bool
  deriving Repr, DecidableEq

/-- `UPDATE grocery_templates SET is_default = 0 WHERE user_id = ?`. -/
def clearUserDefaults (ts : List GroceryTemplateRow) (uid : Nat) :
    List GroceryTemplateRow :=
  ts.map fun t => if t.user_id == uid then { t with is_default := false } else t

/-- `UPDATE grocery_templates SET is_default = 0 WHERE user_id = ? AND id != ?`. -/
def clearOtherDefaults (ts : List GroceryTemplateRow) (uid tid : Nat) :
    List GroceryTemplateRow :=
  ts.map fun t =>
    if t.user_id == uid && t.id != tid then { t with is_default := false } else t

/-- Body of `create_template`: validate the user, clear the user's other
default flags when the new template is default, insert, re-read. -/
def create_template_body (db : DB) (t : GroceryTemplateCreate) (now : Nat) :
    Except ApiError (DB × GroceryTemplateRow) :=
  if !db.users.contains t.user_id then
    let uid := t.user_id
    .error (.notFound s!"User with id {uid} not found")
  else
    let templates :=
      if t.is_default then clearUserDefaults db.grocery_templates t.user_id
      else db.grocery_templates
    let tid := freshId (templates.map (fun r => r.id))
    let row : GroceryTemplateRow :=
      { id := tid, name := t.name, is_default := t.is_default,
        user_id := t.user_id, created_at := now, updated_at := now }
    .ok ({ db with grocery_templates := templates ++ [row] }, row)

/-- `create_template` endpoint (transaction applied). -/
def create_template (db : DB) (t : GroceryTemplateCreate) (now : Nat) :
    DB × Except ApiError GroceryTemplateRow :=
  get_db (create_template_body db t now) db

/-- The per-row effect of the dynamic `UPDATE grocery_templates SET ...
WHERE id = ?` of `update_template` (run when some field is supplied). -/
def applyTemplateRow (tid : Nat) (u : GroceryTemplateUpdate) (now : Nat)
    (t : GroceryTemplateRow) : GroceryTemplateRow :=
  if t.id == tid then
    { t with
      name := u.name.getD t.name,
      is_default := u.is_default.getD t.is_default,
      updated_at := now }
  else t

/-- The templates table produced by `update_template` on a present
template whose owner is `uid`: clear the owner's other default flags when
setting the flag, then apply the supplied fields (stamping `updated_at`)
when at least one field is supplied. -/
def templateUpdateList (ts : List GroceryTemplateRow) (tid : Nat)
    (u : GroceryTemplateUpdate) (now uid : Nat) : List GroceryTemplateRow :=
  let ts1 :=
    if u.is_default == some true then clearOtherDefaults ts uid tid else ts
  if u.name.isSome || u.is_default.isSome then
    ts1.map (applyTemplateRow tid u now)
  else ts1

def update_template_body (db : DB) (template_id : Nat)
    (u : GroceryTemplateUpdate) (now : Nat) :
    Except ApiError (DB × GroceryTemplateRow) :=
  match db.grocery_templates.find? (fun t => t.id == template_id) with
  | none => .error (.notFound s!"Template with id {template_id} not found")
  | some row =>
    let ts2 := templateUpdateList db.grocery_templates template_id u now
      row.user_id
    match ts2.find? (fun t => t.id == template_id) with
    | none => .error .internalError
    | some row2 => .ok ({ db with grocery_templates := ts2 }, row2)

/-- `update_template` endpoint (transaction applied). -/
def update_template (db : DB) (template_id : Nat) (u : GroceryTemplateUpdate)
    (now : Nat) : DB × Except ApiError GroceryTemplateRow :=
  get_db (update_template_body db template_id u now) db

/-- Response body of `POST /api/grocery-templates/{id}/apply`. -/
structure ApplyResult where
  template_id : Nat
  user_id : Nat
  items_added : Nat
  deriving Repr, DecidableEq

/-- The per-item quantity resolution of `apply_template`:
`final_quantity = quantity or default_quantity`, then
`int_quantity = int(final_quantity)` when the item's `quantity_is_int`
flag is set and `final_quantity` is truthy, with a failed parse silently
leaving `int_quantity` as `None`. -/
def resolveGroceryFields (ti_quantity : Option String) (quantity_is_int : Bool)
    (default_quantity : Option String) : Option String × Option Int :=
  let final_quantity := strOr ti_quantity default_quantity
  let int_quantity : Option Int :=
    if quantity_is_int && pyTruthy final_quantity then
      match final_quantity with
      | some s => pyInt s
      | none => none
    else none
  (final_quantity, int_quantity)

/-- The grocery row inserted by one iteration of the `apply_template`
loop: resolved quantities, `purchased = 0`, a fresh rowid. -/
def applyInsertedRow (user_id now : Nat) (ti : GroceryTemplateItemRow)
    (item : ItemRow) (gis : List GroceryItemRow) : GroceryItemRow :=
  { id := freshId (gis.map (fun r => r.id)), item_id := ti.item_id,
    user_id := user_id,
    quantity := (resolveGroceryFields ti.quantity item.quantity_is_int
      item.default_quantity).1,
    int_quantity := (resolveGroceryFields ti.quantity item.quantity_is_int
      item.default_quantity).2,
    purchased := false, created_at := now, updated_at := now }

/-- The insertion loop of `apply_template`: for each template item, look up
its item row (a missing row would crash the Python handler, modelled by
`internalError`), resolve the quantities and insert a grocery item with
`purchased = 0`, counting the insertions. -/
def applyLoop (items : List ItemRow) (user_id now : Nat) :
    List GroceryTemplateItemRow → List GroceryItemRow → Nat →
    Except ApiError (List GroceryItemRow × Nat)
  | [], gis, added => .ok (gis, added)
  | ti :: rest, gis, added =>
    match items.find? (fun i => i.id == ti.item_id) with
    | none => .error .internalError
    | some item =>
      applyLoop items user_id now rest
        (gis ++ [applyInsertedRow user_id now ti item gis]) (added + 1)

/-- Body of `apply_template`: validate template and user, load the
template's items, insert one grocery item per template item and return the
count with the echoed ids. -/
def apply_template_body (db : DB) (template_id user_id : Nat) (now : Nat) :
    Except ApiError (DB × ApplyResult) :=
  if !(db.grocery_templates.any (fun t => t.id == template_id)) then
    .error (.notFound s!"Template with id {template_id} not found")
  else if !db.users.contains user_id then
    .error (.notFound s!"User with id {user_id} not found")
  else
    let template_items :=
      db.grocery_template_items.filter (fun ti => ti.template_id == template_id)
    match applyLoop db.items user_id now template_items db.grocery_items 0 with
    | .error e => .error e
    | .ok (gis, added) =>
      .ok ({ db with grocery_items := gis },
        { template_id := template_id, user_id := user_id, items_added := added })

/-- `apply_template` endpoint (transaction applied). -/
def apply_template (db : DB) (template_id user_id : Nat) (now : Nat) :
    DB × Except ApiError ApplyResult :=
  get_db (apply_template_body db template_id user_id now) db

/-! ## Item and grocery-item listing (`items.py`, `grocery_items.py`) -/

/-- The `store_id` column values produced by
`LEFT JOIN item_stores ist ON <item> = ist.item_id` for one left row: one
value per matching association, or a single NULL when there is none. -/
def joinRows (ist : List ItemStoreRow) (iid : Nat) : List (Option Nat) :=
  match ist.filter (fun r => r.item_id == iid) with
  | [] => [none]
  | rs => rs.map fun r => some r.store_id

/-- `FROM items i LEFT JOIN item_stores ist ON i.id = ist.item_id`: each
item yields one row per matching association, or a single row with a NULL
`store_id` when it has no associations. -/
def leftJoinItemStores (items : List ItemRow) (ist : List ItemStoreRow) :
    List (ItemRow × Option Nat) :=
  items.flatMap fun i => (joinRows ist i.id).map fun s => (i, s)

/-- The `WHERE (ist.store_id = ? OR ist.store_id IS NULL)` predicate. -/
def storeMatch (store_id : Nat) (s : Option Nat) : Bool :=
  s == some store_id || s == none

/-- `list_items` of `items.py`: with a `store_id` filter, a
`SELECT DISTINCT` over the left join keeps items tied to that store or to
no store at all; rows are ordered by name. -/
def list_items (db : DB) (store_id : Option Nat) (sec : Option String) :
    List ItemRow :=
  match store_id with
  | some sid =>
    let kept := (leftJoinItemStores db.items db.item_stores).filter
      fun p => storeMatch sid p.2 && (sec == none || p.1.section_ == sec)
    ((kept.map Prod.fst).dedup).insertionSort
      (fun a b => a.name ≤ b.name)
  | none =>
    (db.items.filter (fun i => sec == none || i.section_ == sec)).insertionSort
      (fun a b => a.name ≤ b.name)

/-- `FROM grocery_items gi JOIN items i ON gi.item_id = i.id LEFT JOIN
item_stores ist ON i.id = ist.item_id`. -/
def leftJoinGroceryStores (gis : List GroceryItemRow) (items : List ItemRow)
    (ist : List ItemStoreRow) : List (GroceryItemRow × Option Nat) :=
  gis.flatMap fun gi =>
    (items.filter (fun i => i.id == gi.item_id)).flatMap fun i =>
      (joinRows ist i.id).map fun s => (gi, s)

/-- `list_grocery_items` of `grocery_items.py`: the user's entries, and
with a `store_id` filter a `SELECT DISTINCT` over the join keeping entries
whose item is tied to that store or to no store; ordered by `created_at`
descending. -/
def list_grocery_items (db : DB) (user_id : Nat) (store_id : Option Nat) :
    List GroceryItemRow :=
  match store_id with
  | some sid =>
    let kept := (leftJoinGroceryStores db.grocery_items db.items
      db.item_stores).filter
      fun p => p.1.user_id == user_id && storeMatch sid p.2
    ((kept.map Prod.fst).dedup).insertionSort
      (fun a b => b.created_at ≤ a.created_at)
  | none =>
    (db.grocery_items.filter (fun gi => gi.user_id == user_id)).insertionSort
      (fun a b => b.created_at ≤ a.created_at)

/-! ## Item repository (`items.py`) -/

/-- Request body of `POST /api/items` (`ItemCreate`). -/
structure ItemCreate where
  name : String
  default_quantity : Option String
  quantity_is_int : Bool
  section_ : Option String
  store_ids : List Nat
  deriving Repr, DecidableEq

/-- Request body of `PUT /api/items/{id}` (`ItemUpdate`); `none` means the
field was not supplied. -/
structure ItemUpdate where
  name : Option String
  default_quantity : Option String
  quantity_is_int : Option Bool
  section_ : Option String
  store_ids : Option (List Nat)
  deriving Repr, DecidableEq

/-- `_set_item_stores`: delete all existing associations of the item, then
insert one row per given store id (full replace). -/
def set_item_stores (ist : List ItemStoreRow) (item_id : Nat)
    (store_ids : List Nat) : List ItemStoreRow :=
  ist.filter (fun r => r.item_id != item_id) ++
    store_ids.map (fun sid => { item_id := item_id, store_id := sid })

/-- `SELECT id FROM stores WHERE id = ?` existence loop over a list of
store ids, raising 404 at the first missing one. -/
def validateStoreIds (stores : List StoreRow) :
    List Nat → Except ApiError Unit
  | [] => .ok ()
  | sid :: rest =>
    if stores.any (fun s => s.id == sid) then validateStoreIds stores rest
    else .error (.notFound s!"Store with id {sid} not found")

/-- Body of `create_item`: duplicate-name check first (409), then store-id
existence checks (404), then insert and set the associations. -/
def create_item_body (db : DB) (item : ItemCreate) (now : Nat) :
    Except ApiError (DB × ItemRow) :=
  if db.items.any (fun i => i.name == item.name) then
    let n := item.name
    .error (.conflict s!"Item with name \x27{n}\x27 already exists")
  else
    match validateStoreIds db.stores item.store_ids with
    | .error e => .error e
    | .ok _ =>
      let iid := freshId (db.items.map (fun i => i.id))
      let row : ItemRow :=
        { id := iid, name := item.name,
          default_quantity := item.default_quantity,
          quantity_is_int := item.quantity_is_int, section_ := item.section_,
          created_at := now, updated_at := now }
      let ist := set_item_stores db.item_stores iid item.store_ids
      .ok ({ db with items := db.items ++ [row], item_stores := ist }, row)

/-- `create_item` endpoint (transaction applied). -/
def create_item (db : DB) (item : ItemCreate) (now : Nat) :
    DB × Except ApiError ItemRow :=
  get_db (create_item_body db item now) db

/-- Apply the supplied scalar fields of an `ItemUpdate` to a row, stamping
`updated_at` exactly when at least one scalar field is supplied. -/
def applyItemFields (u : ItemUpdate) (now : Nat) (i : ItemRow) : ItemRow :=
  if u.name.isSome || u.default_quantity.isSome || u.quantity_is_int.isSome
      || u.section_.isSome then
    { i with
      name := u.name.getD i.name,
      default_quantity := u.default_quantity.or i.default_quantity,
      quantity_is_int := u.quantity_is_int.getD i.quantity_is_int,
      section_ := u.section_.or i.section_,
      updated_at := now }
  else i

/-- The duplicate-name check of `update_item`, run only when a name is
supplied: 409 when another item already carries the new name. -/
def itemNameCheck (items : List ItemRow) (item_id : Nat) :
    Option String → Except ApiError Unit
  | none => .ok ()
  | some newName =>
    if items.any (fun i => i.name == newName && i.id != item_id) then
      .error (.conflict s!"Item with name \x27{newName}\x27 already exists")
    else .ok ()

/-- The final `SELECT ... FROM items WHERE id = ?` re-read of
`update_item`; a vanished row would crash the handler. -/
def read_back_item (db2 : DB) (item_id : Nat) :
    Except ApiError (DB × ItemRow) :=
  match db2.items.find? (fun i => i.id == item_id) with
  | none => .error .internalError
  | some row => .ok (db2, row)

/-- Body of `update_item`, mirroring the source order: existence check,
duplicate-name check inside the name branch, **execute the field update**,
and only then validate the supplied store ids (404 on the first missing
one) and replace the associations — the field mutation precedes the
store-id validation inside the transaction. -/
def update_item_body (db : DB) (item_id : Nat) (u : ItemUpdate) (now : Nat) :
    Except ApiError (DB × ItemRow) :=
  if !(db.items.any (fun i => i.id == item_id)) then
    .error (.notFound s!"Item with id {item_id} not found")
  else
    match itemNameCheck db.items item_id u.name with
    | .error e => .error e
    | .ok _ =>
      let items2 := db.items.map fun i =>
        if i.id == item_id then applyItemFields u now i else i
      let db1 := { db with items := items2 }
      match u.store_ids with
      | none => read_back_item db1 item_id
      | some sids =>
        match validateStoreIds db1.stores sids with
        | .error e => .error e
        | .ok _ =>
          read_back_item
            { db1 with
              item_stores := set_item_stores db1.item_stores item_id sids }
            item_id

/-- `update_item` endpoint (transaction applied): on any error the
transaction is rolled back, so the committed state is the entry state. -/
def update_item (db : DB) (item_id : Nat) (u : ItemUpdate) (now : Nat) :
    DB × Except ApiError ItemRow :=
  get_db (update_item_body db item_id u now) db

/-! ## Store repository (`stores.py`) -/

/-- Request body of `PUT /api/stores/{id}` (`StoreUpdate`). -/
structure StoreUpdate where
  name : Option String
  deriving Repr, DecidableEq

/-- The final `SELECT ... FROM stores WHERE id = ?` re-read of
`update_store`, committing the given stores table. -/
def read_back_store (stores2 : List StoreRow) (db : DB) (store_id : Nat) :
    Except ApiError (DB × StoreRow) :=
  match stores2.find? (fun s => s.id == store_id) with
  | none => .error .internalError
  | some row => .ok ({ db with stores := stores2 }, row)

/-- Body of `update_store`: existence check of the addressed store first
(404), then — only when a name is supplied — the duplicate-name check
(409), the `UPDATE ... SET name = ?, updated_at = CURRENT_TIMESTAMP`, and
a re-read. -/
def update_store_body (db : DB) (store_id : Nat) (u : StoreUpdate)
    (now : Nat) : Except ApiError (DB × StoreRow) :=
  if !(db.stores.any (fun s => s.id == store_id)) then
    .error (.notFound s!"Store with id {store_id} not found")
  else
    match u.name with
    | none => read_back_store db.stores db store_id
    | some newName =>
      if db.stores.any (fun s => s.name == newName && s.id != store_id) then
        .error (.conflict s!"Store with name \x27{newName}\x27 already exists")
      else
        read_back_store
          (db.stores.map fun s =>
            if s.id == store_id then
              { s with name := newName, updated_at := now }
            else s)
          db store_id

/-- `update_store` endpoint (transaction applied). -/
def update_store (db : DB) (store_id : Nat) (u : StoreUpdate) (now : Nat) :
    DB × Except ApiError StoreRow :=
  get_db (update_store_body db store_id u now) db

/-- Body of `delete_store`: 404 when absent; count the `item_stores` rows
referencing the store and refuse with 409 (count in the message) when
positive; otherwise delete the row. -/
def delete_store_body (db : DB) (store_id : Nat) :
    Except ApiError (DB × Unit) :=
  if !(db.stores.any (fun s => s.id == store_id)) then
    .error (.notFound s!"Store with id {store_id} not found")
  else
    let count :=
      (db.item_stores.filter (fun r => r.store_id == store_id)).length
    if count > 0 then
      .error (.conflict
        s!"Cannot delete store: {count} items reference this store")
    else
      .ok ({ db with
        stores := db.stores.filter (fun s => s.id != store_id) }, ())

/-- `delete_store` endpoint (transaction applied). -/
def delete_store (db : DB) (store_id : Nat) : DB × Except ApiError Unit :=
  get_db (delete_store_body db store_id) db

/-! ## Provider repository (`providers.py`) -/

/-- Request body of `PUT /api/providers/{id}` (`ProviderUpdate`). -/
structure ProviderUpdate where
  name : Option String
  phone : Option String
  email : Option String
  website : Option String
  address : Option String
  info : Option String
  deriving Repr, DecidableEq

/-- Apply the supplied fields of a `ProviderUpdate` to a row, stamping
`updated_at` exactly when at least one field is supplied. -/
def applyProviderFields (u : ProviderUpdate) (now : Nat) (p : ProviderRow) :
    ProviderRow :=
  if u.name.isSome || u.phone.isSome || u.email.isSome || u.website.isSome
      || u.address.isSome || u.info.isSome then
    { p with
      name := u.name.getD p.name,
      phone := u.phone.or p.phone,
      email := u.email.or p.email,
      website := u.website.or p.website,
      address := u.address.or p.address,
      info := u.info.or p.info,
      updated_at := now }
  else p

/-- Body of `update_provider`: 404 when absent, dynamic field update,
re-read. -/
def update_provider_body (db : DB) (provider_id : Nat) (u : ProviderUpdate)
    (now : Nat) : Except ApiError (DB × ProviderRow) :=
  if !(db.providers.any (fun p => p.id == provider_id)) then
    .error (.notFound s!"Provider with id {provider_id} not found")
  else
    let ps2 := db.providers.map fun p =>
      if p.id == provider_id then applyProviderFields u now p else p
    match ps2.find? (fun p => p.id == provider_id) with
    | none => .error .internalError
    | some row => .ok ({ db with providers := ps2 }, row)

/-- `update_provider` endpoint (transaction applied). -/
def update_provider (db : DB) (provider_id : Nat) (u : ProviderUpdate)
    (now : Nat) : DB × Except ApiError ProviderRow :=
  get_db (update_provider_body db provider_id u now) db

/-- Body of `delete_provider`: 404 when absent; count the appointments
referencing the provider and refuse with 409 (count in the message) when
positive; otherwise delete the row. -/
def delete_provider_body (db : DB) (provider_id : Nat) :
    Except ApiError (DB × Unit) :=
  if !(db.providers.any (fun p => p.id == provider_id)) then
    .error (.notFound s!"Provider with id {provider_id} not found")
  else
    let count :=
      (db.appointments.filter
        (fun a => a.provider_id == some provider_id)).length
    if count > 0 then
      .error (.conflict
        s!"Cannot delete provider: {count} appointments reference this provider")
    else
      .ok ({ db with
        providers := db.providers.filter (fun p => p.id != provider_id) }, ())

/-- `delete_provider` endpoint (transaction applied). -/
def delete_provider (db : DB) (provider_id : Nat) : DB × Except ApiError Unit :=
  get_db (delete_provider_body db provider_id) db

/-! ## Task repository (`tasks.py`) -/

/-- `due_date` sort key comparison of
`ORDER BY completed, due_date NULLS LAST`: a NULL due date sorts after
every non-NULL one. -/
def dueBefore : Option Nat → Option Nat → Bool
  | some a, some b => a < b
  | some _, none => true
  | none, _ => false

/-- The row order produced by
`ORDER BY completed, due_date NULLS LAST, created_at DESC`:
`completed` ascending (incomplete first), then `due_date` ascending with
NULLs last, then `created_at` descending. -/
def taskLE (a b : TaskRow) : Bool :=
  (!a.completed && b.completed) ||
    (a.completed == b.completed &&
      (dueBefore a.due_date b.due_date ||
        (a.due_date == b.due_date && b.created_at ≤ a.created_at)))

/-- `list_tasks` of `tasks.py`: equality filters on `assigned_to` and
`category` combined with AND, then the three-key ordering. -/
def list_tasks (db : DB) (assigned_to : Option Nat)
    (category : Option String) : List TaskRow :=
  (db.tasks.filter fun t =>
    (assigned_to == none || t.assigned_to == assigned_to) &&
      (category == none || t.category == category.getD "")).insertionSort
    (fun a b => taskLE a b = true)

/-- Request body of `PUT /api/tasks/{id}` (`TaskUpdate`). -/
structure TaskUpdate where
  title : Option String
  category : Option String
  completed : Option Bool
  due_date : Option Nat
  assigned_to : Option Nat
  deriving Repr, DecidableEq

/-- Apply the supplied fields of a `TaskUpdate` to a row, stamping
`updated_at` exactly when at least one field is supplied. -/
def applyTaskFields (u : TaskUpdate) (now : Nat) (t : TaskRow) : TaskRow :=
  if u.title.isSome || u.category.isSome || u.completed.isSome
      || u.due_date.isSome || u.assigned_to.isSome then
    { t with
      title := u.title.getD t.title,
      category := u.category.getD t.category,
      completed := u.completed.getD t.completed,
      due_date := u.due_date.or t.due_date,
      assigned_to := u.assigned_to.or t.assigned_to,
      updated_at := now }
  else t

/-- The dynamic `UPDATE tasks SET ...` plus re-read of `update_task`. -/
def task_update_write (db : DB) (task_id : Nat) (u : TaskUpdate) (now : Nat) :
    Except ApiError (DB × TaskRow) :=
  let ts2 := db.tasks.map fun t =>
    if t.id == task_id then applyTaskFields u now t else t
  match ts2.find? (fun t => t.id == task_id) with
  | none => .error .internalError
  | some row => .ok ({ db with tasks := ts2 }, row)

/-- Body of `update_task`: 404 when the task is absent; when an
`assigned_to` value is supplied, 404 when that user is absent; dynamic
field update stamping `updated_at` only when some field is supplied;
re-read. -/
def update_task_body (db : DB) (task_id : Nat) (u : TaskUpdate) (now : Nat) :
    Except ApiError (DB × TaskRow) :=
  if !(db.tasks.any (fun t => t.id == task_id)) then
    .error (.notFound s!"Task with id {task_id} not found")
  else
    match u.assigned_to with
    | some uid =>
      if !db.users.contains uid then
        .error (.notFound s!"User with id {uid} not found")
      else task_update_write db task_id u now
    | none => task_update_write db task_id u now

/-- `update_task` endpoint (transaction applied). -/
def update_task (db : DB) (task_id : Nat) (u : TaskUpdate) (now : Nat) :
    DB × Except ApiError TaskRow :=
  get_db (update_task_body db task_id u now) db

/-! ## Appointment repository (`appointments.py`) -/

/-- Request body of `PUT /api/appointments/{id}` (`AppointmentUpdate`). -/
structure AppointmentUpdate where
  title : Option String
  date : Option Nat
  type_ : Option String
  notes : Option String
  provider_id : Option Nat
  patient_name : Option String
  deriving Repr, DecidableEq

/-- Apply the supplied fields of an `AppointmentUpdate` to a row, stamping
`updated_at` exactly when at least one field is supplied. -/
def applyAppointmentFields (u : AppointmentUpdate) (now : Nat)
    (a : AppointmentRow) : AppointmentRow :=
  if u.title.isSome || u.date.isSome || u.type_.isSome || u.notes.isSome
      || u.provider_id.isSome || u.patient_name.isSome then
    { a with
      title := u.title.getD a.title,
      date := u.date.getD a.date,
      type_ := u.type_.getD a.type_,
      notes := u.notes.or a.notes,
      provider_id := u.provider_id.or a.provider_id,
      patient_name := u.patient_name.or a.patient_name,
      updated_at := now }
  else a

/-- The dynamic `UPDATE appointments SET ...` plus re-read of
`update_appointment`. -/
def appointment_update_write (db : DB) (appointment_id : Nat)
    (u : AppointmentUpdate) (now : Nat) :
    Except ApiError (DB × AppointmentRow) :=
  let as2 := db.appointments.map fun a =>
    if a.id == appointment_id then applyAppointmentFields u now a else a
  match as2.find? (fun a => a.id == appointment_id) with
  | none => .error .internalError
  | some row => .ok ({ db with appointments := as2 }, row)

/-- Body of `update_appointment`: 404 when the appointment is absent; when
a `provider_id` value is supplied, 404 when that provider is absent;
dynamic field update; re-read. -/
def update_appointment_body (db : DB) (appointment_id : Nat)
    (u : AppointmentUpdate) (now : Nat) :
    Except ApiError (DB × AppointmentRow) :=
  if !(db.appointments.any (fun a => a.id == appointment_id)) then
    .error (.notFound s!"Appointment with id {appointment_id} not found")
  else
    match u.provider_id with
    | some pid =>
      if !(db.providers.any (fun p => p.id == pid)) then
        .error (.notFound s!"Provider with id {pid} not found")
      else appointment_update_write db appointment_id u now
    | none => appointment_update_write db appointment_id u now

/-- `update_appointment` endpoint (transaction applied). -/
def update_appointment (db : DB) (appointment_id : Nat)
    (u : AppointmentUpdate) (now : Nat) :
    DB × Except ApiError AppointmentRow :=
  get_db (update_appointment_body db appointment_id u now) db

/-! ## Exclusivity of the default-template flag -/

/-- Number of templates in `ts` owned by `uid` with `is_default` set. -/
def defaultCount (ts : List GroceryTemplateRow) (uid : Nat) : Nat :=
  ts.countP (fun t => t.user_id == uid && t.is_default)

/-- Well-formedness: template ids are unique (`id` is the primary key). -/
def TemplateWF (db : DB) : Prop :=
  (db.grocery_templates.map (fun t => t.id)).Nodup

/-- A template-engine write operation together with its request data. -/
inductive TemplateOp where
  | createOp (t : GroceryTemplateCreate) (now : Nat)
  | updateOp (template_id : Nat) (u : GroceryTemplateUpdate) (now : Nat)

/-- Committed state after one template operation (errors roll back). -/
def applyTemplateOp (db : DB) : TemplateOp → DB
  | .createOp t now => (create_template db t now).1
  | .updateOp tid u now => (update_template db tid u now).1

/-- Committed state after a sequence of template operations. -/
def applyTemplateOps (db : DB) (ops : List TemplateOp) : DB :=
  ops.foldl applyTemplateOp db

theorem defaultCount_clearUserDefaults (ts : List GroceryTemplateRow)
    (uid : Nat) : defaultCount (clearUserDefaults ts uid) uid = 0 := by
  unfold defaultCount clearUserDefaults
  rw [List.countP_map]
  refine List.countP_eq_zero.2 (fun t _ => ?_)
  by_cases h : t.user_id = uid <;> simp [Function.comp, h]

theorem defaultCount_clearUserDefaults_other (ts : List GroceryTemplateRow)
    (uid v : Nat) (hv : v ≠ uid) :
    defaultCount (clearUserDefaults ts uid) v = defaultCount ts v := by
  unfold defaultCount clearUserDefaults
  rw [List.countP_map]
  refine List.countP_congr (fun t _ => ?_)
  by_cases h : t.user_id = uid <;>
    simp [Function.comp, h, hv, Ne.symm hv]

theorem clearUserDefaults_flag (ts : List GroceryTemplateRow) (uid : Nat) :
    ∀ r ∈ clearUserDefaults ts uid, r.user_id = uid → r.is_default = false := by
  intro r hr hu
  rcases List.mem_map.1 hr with ⟨t, _, rfl⟩
  by_cases h : t.user_id = uid
  · simp [h]
  · simp [h] at hu

theorem le_foldr_max {x : Nat} {ids : List Nat} (h : x ∈ ids) :
    x ≤ ids.foldr max 0 := by
  induction ids with
  | nil => cases h
  | cons a l ih =>
    rcases List.mem_cons.1 h with rfl | h2
    · exact le_max_left _ _
    · exact le_trans (ih h2) (le_max_right _ _)

theorem freshId_not_mem (ids : List Nat) : freshId ids ∉ ids := by
  intro h
  have h2 := le_foldr_max h
  unfold freshId at h2
  omega

theorem nodup_append_freshId {ids : List Nat} (h : ids.Nodup) :
    (ids ++ [freshId ids]).Nodup :=
  ((List.perm_append_singleton _ _).nodup_iff).2
    (List.nodup_cons.2 ⟨freshId_not_mem ids, h⟩)

theorem map_id_of_preserved {f : GroceryTemplateRow → GroceryTemplateRow}
    (hf : ∀ t, (f t).id = t.id) (ts : List GroceryTemplateRow) :
    (ts.map f).map (fun t => t.id) = ts.map (fun t => t.id) := by
  rw [List.map_map]
  exact List.map_congr_left (fun t _ => hf t)

theorem clearUserDefaults_map_id (ts : List GroceryTemplateRow) (uid : Nat) :
    (clearUserDefaults ts uid).map (fun t => t.id) =
      ts.map (fun t => t.id) := by
  unfold clearUserDefaults
  refine map_id_of_preserved (fun t => ?_) ts
  by_cases h : t.user_id = uid <;> simp [h]

/-- The table that `create_template` commits on the successful path. -/
def templateCreateList (ts : List GroceryTemplateRow)
    (t : GroceryTemplateCreate) (now : Nat) : List GroceryTemplateRow :=
  let templates := if t.is_default then clearUserDefaults ts t.user_id else ts
  templates ++
    [{ id := freshId (templates.map (fun r => r.id)), name := t.name,
       is_default := t.is_default, user_id := t.user_id,
       created_at := now, updated_at := now }]

theorem create_template_committed_ok (db : DB) (t : GroceryTemplateCreate)
    (now : Nat) (hu : t.user_id ∈ db.users) :
    (create_template db t now).1.grocery_templates =
      templateCreateList db.grocery_templates t now := by
  simp [create_template, get_db, create_template_body, hu,
    templateCreateList]

theorem create_template_committed_err (db : DB) (t : GroceryTemplateCreate)
    (now : Nat) (hu : t.user_id ∉ db.users) :
    (create_template db t now).1 = db := by
  simp [create_template, get_db, create_template_body, hu]

theorem templateCreateList_map_id (ts : List GroceryTemplateRow)
    (t : GroceryTemplateCreate) (now : Nat) (h : (ts.map (fun r => r.id)).Nodup) :
    ((templateCreateList ts t now).map (fun r => r.id)).Nodup := by
  unfold templateCreateList
  cases hd : t.is_default <;>
    simp only [hd, if_true, if_false, List.map_append, List.map_cons,
      List.map_nil, Bool.false_eq_true]
  · exact nodup_append_freshId h
  · rw [clearUserDefaults_map_id]
    exact nodup_append_freshId (by simpa [clearUserDefaults_map_id] using h)

theorem create_template_wf (db : DB) (t : GroceryTemplateCreate) (now : Nat)
    (hwf : TemplateWF db) : TemplateWF (create_template db t now).1 := by
  by_cases hu : t.user_id ∈ db.users
  · unfold TemplateWF
    rw [create_template_committed_ok db t now hu]
    exact templateCreateList_map_id _ _ _ hwf
  · rw [create_template_committed_err db t now hu]
    exact hwf

theorem defaultCount_templateCreateList (ts : List GroceryTemplateRow)
    (t : GroceryTemplateCreate) (now v : Nat)
    (hv : defaultCount ts v ≤ 1) :
    defaultCount (templateCreateList ts t now) v ≤ 1 := by
  unfold templateCreateList
  cases hd : t.is_default <;>
    simp only [hd, if_true, if_false, Bool.false_eq_true]
  · unfold defaultCount at hv ⊢
    rw [List.countP_append]
    simp [List.countP_cons]
    omega
  · unfold defaultCount at hv ⊢
    rw [List.countP_append]
    by_cases hvu : v = t.user_id
    · subst hvu
      have h0 := defaultCount_clearUserDefaults ts t.user_id
      unfold defaultCount at h0
      rw [h0]
      simp [List.countP_cons]
    · have h1 := defaultCount_clearUserDefaults_other ts t.user_id v hvu
      unfold defaultCount at h1
      rw [h1]
      simp [List.countP_cons, Ne.symm hvu]
      omega

theorem defaultCount_create_le (db : DB) (t : GroceryTemplateCreate)
    (now v : Nat) (hv : defaultCount db.grocery_templates v ≤ 1) :
    defaultCount (create_template db t now).1.grocery_templates v ≤ 1 := by
  by_cases hu : t.user_id ∈ db.users
  · rw [create_template_committed_ok db t now hu]
    exact defaultCount_templateCreateList _ _ _ _ hv
  · rw [create_template_committed_err db t now hu]
    exact hv

theorem applyTemplateRow_id (tid : Nat) (u : GroceryTemplateUpdate)
    (now : Nat) (t : GroceryTemplateRow) :
    (applyTemplateRow tid u now t).id = t.id := by
  unfold applyTemplateRow
  by_cases h : t.id = tid <;> simp [h]

theorem clearOtherDefaults_map_id (ts : List GroceryTemplateRow)
    (uid tid : Nat) :
    (clearOtherDefaults ts uid tid).map (fun t => t.id) =
      ts.map (fun t => t.id) := by
  unfold clearOtherDefaults
  refine map_id_of_preserved (fun t => ?_) ts
  by_cases h : (t.user_id == uid && t.id != tid) = true
  · simp [h]
  · simp [h]

theorem templateUpdateList_map_id (ts : List GroceryTemplateRow)
    (tid : Nat) (u : GroceryTemplateUpdate) (now uid : Nat) :
    (templateUpdateList ts tid u now uid).map (fun t => t.id) =
      ts.map (fun t => t.id) := by
  unfold templateUpdateList
  by_cases hd : (u.is_default == some true) = true <;>
    by_cases hf : (u.name.isSome || u.is_default.isSome) = true <;>
      simp only [hd, hf, if_true, if_false, Bool.false_eq_true, if_pos,
        Bool.not_eq_true]
  all_goals first
  | rw [map_id_of_preserved (applyTemplateRow_id tid u now),
      clearOtherDefaults_map_id]
  | rw [clearOtherDefaults_map_id]
  | rw [map_id_of_preserved (applyTemplateRow_id tid u now)]

theorem update_template_committed (db : DB) (tid : Nat)
    (u : GroceryTemplateUpdate) (now : Nat) :
    (update_template db tid u now).1.grocery_templates =
        db.grocery_templates ∨
      ∃ row, db.grocery_templates.find? (fun t => t.id == tid) = some row ∧
        (update_template db tid u now).1.grocery_templates =
          templateUpdateList db.grocery_templates tid u now row.user_id := by
  unfold update_template get_db update_template_body
  cases hfind : db.grocery_templates.find? (fun t => t.id == tid) with
  | none => simp
  | some row =>
    cases hfind2 : (templateUpdateList db.grocery_templates tid u now
        row.user_id).find? (fun t => t.id == tid) with
    | none => simp [hfind2]
    | some row2 =>
      right
      exact ⟨row, rfl, by simp [hfind2]⟩

theorem countP_id_le_one (ts : List GroceryTemplateRow) (tid : Nat)
    (hwf : (ts.map (fun t => t.id)).Nodup) :
    ts.countP (fun t => t.id == tid) ≤ 1 := by
  have h := List.nodup_iff_count_le_one.1 hwf tid
  rw [List.count_eq_countP, List.countP_map] at h
  simpa [Function.comp] using h

theorem defaultCount_templateUpdateList_le
    (ts : List GroceryTemplateRow) (tid now v uid : Nat)
    (u : GroceryTemplateUpdate) (row : GroceryTemplateRow)
    (hmem : row ∈ ts) (hid : row.id = tid) (huid : row.user_id = uid)
    (hwf : (ts.map (fun t => t.id)).Nodup)
    (hv : ∀ w, defaultCount ts w ≤ 1) :
    defaultCount (templateUpdateList ts tid u now uid) v ≤ 1 := by
  unfold templateUpdateList defaultCount
  cases hd : u.is_default with
  | none =>
    by_cases hn : u.name.isSome
    · simp only [Option.isSome_none, Bool.or_false, hn, if_true,
        show ((none : Option Bool) == some true) = false from rfl,
        Bool.false_eq_true, if_false]
      rw [List.countP_map]
      rw [List.countP_congr (fun t _ => ?_)]
      · exact hv v
      · by_cases h : (t.id == tid) = true <;>
          simp [applyTemplateRow, Function.comp, h, hd]
    · have hn2 : u.name.isSome = false := by simpa using hn
      simp only [Option.isSome_none, Bool.or_false, hn2,
        show ((none : Option Bool) == some true) = false from rfl,
        Bool.false_eq_true, if_false]
      exact hv v
  | some b =>
    cases b with
    | false =>
      simp only [Option.isSome_some, Bool.or_true, if_true,
        show ((some false : Option Bool) == some true) = false from rfl,
        Bool.false_eq_true, if_false]
      rw [List.countP_map]
      refine le_trans (List.countP_mono_left (fun t _ h2 => ?_)) (hv v)
      by_cases h : (t.id == tid) = true
      · exfalso
        simp [applyTemplateRow, Function.comp, h, hd] at h2
      · simpa [applyTemplateRow, Function.comp, h] using h2
    | true =>
      simp only [Option.isSome_some, Bool.or_true, if_true,
        show ((some true : Option Bool) == some true) = true from rfl]
      unfold clearOtherDefaults
      rw [List.countP_map, List.countP_map]
      by_cases hvu : v = uid
      · subst hvu
        refine le_trans (List.countP_mono_left (fun t _ h2 => ?_))
          (countP_id_le_one ts tid hwf)
        by_cases h : (t.id == tid) = true
        · exact h
        · exfalso
          by_cases h4 : (t.user_id == v) = true <;>
            simp [applyTemplateRow, Function.comp, bne, h, h4, hd] at h2
      · refine le_trans (List.countP_mono_left (fun t hmem2 h2 => ?_)) (hv v)
        by_cases h : (t.id == tid) = true
        · exfalso
          have hteq : t = row := by
            refine List.inj_on_of_nodup_map hwf hmem2 hmem ?_
            have h5 : t.id = tid := by simpa using h
            simp [h5, hid]
          subst hteq
          simp [applyTemplateRow, Function.comp, bne, hid, huid,
            Ne.symm hvu, hd] at h2
        · by_cases h4 : (t.user_id == uid) = true
          · exfalso
            simp [applyTemplateRow, Function.comp, bne, h, h4, hd,
              Ne.symm hvu] at h2
          · simpa [applyTemplateRow, Function.comp, bne, h, h4] using h2

theorem update_template_wf (db : DB) (tid : Nat) (u : GroceryTemplateUpdate)
    (now : Nat) (hwf : TemplateWF db) :
    TemplateWF (update_template db tid u now).1 := by
  rcases update_template_committed db tid u now with h | ⟨row, _, h⟩
  · unfold TemplateWF
    rw [h]
    exact hwf
  · unfold TemplateWF
    rw [h, templateUpdateList_map_id]
    exact hwf

theorem defaultCount_update_le (db : DB) (tid : Nat)
    (u : GroceryTemplateUpdate) (now v : Nat) (hwf : TemplateWF db)
    (hv : ∀ w, defaultCount db.grocery_templates w ≤ 1) :
    defaultCount (update_template db tid u now).1.grocery_templates v ≤ 1 := by
  rcases update_template_committed db tid u now with h | ⟨row, hfind, h⟩
  · rw [h]
    exact hv v
  · rw [h]
    have hmem := List.mem_of_find?_eq_some hfind
    have hid : row.id = tid := by simpa using List.find?_some hfind
    exact defaultCount_templateUpdateList_le db.grocery_templates tid now v
      row.user_id u row hmem hid rfl hwf hv

theorem templateOps_invariant (ops : List TemplateOp) :
    ∀ (db : DB), TemplateWF db →
      (∀ v, defaultCount db.grocery_templates v ≤ 1) →
      TemplateWF (applyTemplateOps db ops) ∧
        ∀ v, defaultCount (applyTemplateOps db ops).grocery_templates v ≤ 1 := by
  induction ops with
  | nil => exact fun db hwf hv => ⟨hwf, hv⟩
  | cons op rest ih =>
    intro db hwf hv
    have hstep : TemplateWF (applyTemplateOp db op) ∧
        ∀ v, defaultCount (applyTemplateOp db op).grocery_templates v ≤ 1 := by
      cases op with
      | createOp t now =>
        exact ⟨create_template_wf db t now hwf,
          fun v => defaultCount_create_le db t now v (hv v)⟩
      | updateOp tid u now =>
        exact ⟨update_template_wf db tid u now hwf,
          fun v => defaultCount_update_le db tid u now v hwf hv⟩
    have h2 := ih (applyTemplateOp db op) hstep.1 hstep.2
    simpa [applyTemplateOps] using h2

theorem create_template_result (db : DB) (t : GroceryTemplateCreate)
    (now : Nat) (hu : t.user_id ∈ db.users) :
    (create_template db t now).2 = .ok
      { id := freshId ((if t.is_default then
            clearUserDefaults db.grocery_templates t.user_id
          else db.grocery_templates).map (fun r => r.id)),
        name := t.name, is_default := t.is_default, user_id := t.user_id,
        created_at := now, updated_at := now } := by
  simp [create_template, get_db, create_template_body, hu]

/-- An initial state with a single user (id 1) and no other rows, used by
the concrete scenarios. -/
def dbWithUser1 : DB :=
  { users := [1], stores := [], items := [], item_stores := [],
    grocery_items := [], grocery_templates := [],
    grocery_template_items := [], providers := [], appointments := [],
    tasks := [] }

/-- The committed state after creating two templates with
`is_default = true` for user 1, one after the other. -/
def twoDefaultCreates : DB :=
  (create_template
    (create_template dbWithUser1
      { name := "Weekly", is_default := true, user_id := 1 } 1).1
    { name := "Monthly", is_default := true, user_id := 1 } 2).1

/-- **C1**: after any sequence of template create and update operations,
at most one template per user has `is_default = true`; a successful
create with `is_default = true` leaves the new row as the only default of
that user (every other default is unset in the same transaction); and
creating two defaults for the same user leaves exactly one default — the
second. -/
theorem C1_default_template_exclusivity :
    (∀ (db : DB) (ops : List TemplateOp) (uid : Nat),
        TemplateWF db →
        (∀ v, defaultCount db.grocery_templates v ≤ 1) →
        defaultCount (applyTemplateOps db ops).grocery_templates uid ≤ 1) ∧
    (∀ (db : DB) (t : GroceryTemplateCreate) (now : Nat),
        t.is_default = true → t.user_id ∈ db.users →
        ∀ r ∈ (create_template db t now).1.grocery_templates,
          r.user_id = t.user_id → r.is_default = true →
          (create_template db t now).2 = .ok r) ∧
    (twoDefaultCreates.grocery_templates.map
        (fun t => (t.name, t.is_default)) =
      [("Weekly", false), ("Monthly", true)]) := by
  refine ⟨?_, ?_, ?_⟩
  · intro db ops uid hwf hv
    exact ((templateOps_invariant ops db hwf hv).2) uid
  · intro db t now hdef hu r hr hru hrd
    rw [create_template_committed_ok db t now hu] at hr
    unfold templateCreateList at hr
    rw [hdef] at hr
    simp only [if_true] at hr
    rcases (List.mem_append).1 hr with h | h
    · have := clearUserDefaults_flag db.grocery_templates t.user_id r h hru
      rw [this] at hrd
      cases hrd
    · have hreq := List.mem_singleton.1 h
      rw [create_template_result db t now hu, hdef]
      simp only [if_true]
      rw [hreq]
  · rfl

theorem C1_witness :
    defaultCount
      (DB.grocery_templates
        (applyTemplateOps dbWithUser1
          [TemplateOp.createOp
            { name := "Weekly", is_default := true, user_id := 1 } 1,
           TemplateOp.createOp
            { name := "Monthly", is_default := true, user_id := 1 } 2])) 1 ≤
      1 :=
  C1_default_template_exclusivity.1 dbWithUser1
    [TemplateOp.createOp
      { name := "Weekly", is_default := true, user_id := 1 } 1,
     TemplateOp.createOp
      { name := "Monthly", is_default := true, user_id := 1 } 2] 1
    (by simp [TemplateWF, dbWithUser1])
    (fun v => by simp [defaultCount, dbWithUser1])

/-! ## Template application: loop specification -/

/-- What `apply_template` inserts for one template item: the right
`item_id`, the requesting user, `purchased = false`, and the quantity
resolution of the source (whenever the template item's item row is the one
found). -/
def appliedRow (items : List ItemRow) (user_id now : Nat)
    (ti : GroceryTemplateItemRow) (r : GroceryItemRow) : Prop :=
  r.item_id = ti.item_id ∧ r.user_id = user_id ∧ r.purchased = false ∧
    r.created_at = now ∧
    ∀ item, items.find? (fun i => i.id == ti.item_id) = some item →
      (r.quantity, r.int_quantity) =
        resolveGroceryFields ti.quantity item.quantity_is_int
          item.default_quantity

theorem applyLoop_spec (items : List ItemRow) (user_id now : Nat)
    (tis : List GroceryTemplateItemRow) :
    ∀ (gis : List GroceryItemRow) (added : Nat),
      (∀ ti ∈ tis, (items.find? (fun i => i.id == ti.item_id)).isSome) →
      ∃ newRows, applyLoop items user_id now tis gis added =
          .ok (gis ++ newRows, added + tis.length) ∧
        List.Forall₂ (appliedRow items user_id now) tis newRows := by
  induction tis with
  | nil =>
    intro gis added _
    exact ⟨[], by simp [applyLoop], List.Forall₂.nil⟩
  | cons ti rest ih =>
    intro gis added hfk
    obtain ⟨item, hitem⟩ := Option.isSome_iff_exists.1
      (hfk ti (List.mem_cons_self ti rest))
    have hrest : ∀ ti2 ∈ rest,
        (items.find? (fun i => i.id == ti2.item_id)).isSome :=
      fun ti2 h => hfk ti2 (List.mem_cons_of_mem ti h)
    obtain ⟨newRows, heq, hrel⟩ :=
      ih (gis ++ [applyInsertedRow user_id now ti item gis]) (added + 1) hrest
    refine ⟨applyInsertedRow user_id now ti item gis :: newRows, ?_, ?_⟩
    · have hstep : applyLoop items user_id now (ti :: rest) gis added =
          applyLoop items user_id now rest
            (gis ++ [applyInsertedRow user_id now ti item gis])
            (added + 1) := by
        simp [applyLoop, hitem]
      rw [hstep, heq]
      have hn : added + 1 + rest.length = added + (ti :: rest).length := by
        simp
        omega
      rw [hn]
      simp
    · refine List.Forall₂.cons ⟨rfl, rfl, rfl, rfl, ?_⟩ hrel
      intro item2 hitem2
      rw [hitem] at hitem2
      cases hitem2
      rfl

/-- The successful path of `apply_template`: one new grocery row per
template item, appended to the user's list, with the count echoed back. -/
theorem apply_template_ok (db : DB) (tid uid now : Nat)
    (ht : (db.grocery_templates.any (fun t => t.id == tid)) = true)
    (hu : uid ∈ db.users)
    (hfk : ∀ ti ∈ db.grocery_template_items.filter
        (fun x => x.template_id == tid),
      (db.items.find? (fun i => i.id == ti.item_id)).isSome) :
    ∃ newRows,
      apply_template db tid uid now =
        ({ db with grocery_items := db.grocery_items ++ newRows },
         .ok { template_id := tid, user_id := uid,
               items_added := (db.grocery_template_items.filter
                 (fun x => x.template_id == tid)).length }) ∧
      List.Forall₂ (appliedRow db.items uid now)
        (db.grocery_template_items.filter (fun x => x.template_id == tid))
        newRows := by
  obtain ⟨newRows, heq, hrel⟩ := applyLoop_spec db.items uid now
    (db.grocery_template_items.filter (fun x => x.template_id == tid))
    db.grocery_items 0 hfk
  refine ⟨newRows, ?_, hrel⟩
  simp [apply_template, get_db, apply_template_body, ht, hu, heq]

theorem forall2_mem_right {α β : Type} {R : α → β → Prop} :
    ∀ {l1 : List α} {l2 : List β}, List.Forall₂ R l1 l2 →
      ∀ b ∈ l2, ∃ a ∈ l1, R a b := by
  intro l1 l2 h
  induction h with
  | nil =>
    intro b hb
    cases hb
  | cons hab h2 ih =>
    intro b hb
    rcases List.mem_cons.1 hb with rfl | hb2
    · exact ⟨_, List.mem_cons_self _ _, hab⟩
    · obtain ⟨a, ha, hr⟩ := ih b hb2
      exact ⟨a, List.mem_cons_of_mem _ ha, hr⟩

theorem pyInt_empty : pyInt "" = none := rfl

theorem resolveGroceryFields_quantity (q d : Option String) (flag : Bool) :
    (resolveGroceryFields q flag d).1 = if pyTruthy q then q else d := rfl

theorem resolveGroceryFields_int (q d : Option String) (flag : Bool) :
    (resolveGroceryFields q flag d).2 =
      if flag then (strOr q d).bind pyInt else none := by
  unfold resolveGroceryFields
  generalize strOr q d = final
  cases flag
  · simp
  · cases final with
    | none => simp [pyTruthy]
    | some s =>
      by_cases hs : s = ""
      · subst hs
        simp [pyTruthy, pyInt_empty]
      · simp [pyTruthy, bne, hs]

/-- **C2**: applying a template with N template items to an existing user
appends exactly N new grocery rows for that user, each with
`purchased = false`, returns `items_added = N` with the echoed
`template_id` and `user_id`, and a second application appends N more (no
deduplication: 2N rows total). -/
theorem C2_apply_adds_n_rows (db : DB) (tid uid now now2 : Nat)
    (ht : (db.grocery_templates.any (fun t => t.id == tid)) = true)
    (hu : uid ∈ db.users)
    (hfk : ∀ ti ∈ db.grocery_template_items.filter
        (fun x => x.template_id == tid),
      (db.items.find? (fun i => i.id == ti.item_id)).isSome) :
    ∃ newRows,
      apply_template db tid uid now =
        ({ db with grocery_items := db.grocery_items ++ newRows },
         .ok { template_id := tid, user_id := uid,
               items_added := (db.grocery_template_items.filter
                 (fun x => x.template_id == tid)).length }) ∧
      newRows.length = (db.grocery_template_items.filter
        (fun x => x.template_id == tid)).length ∧
      (∀ r ∈ newRows, r.purchased = false ∧ r.user_id = uid) ∧
      ((apply_template
          { db with grocery_items := db.grocery_items ++ newRows }
          tid uid now2).1).grocery_items.length =
        db.grocery_items.length +
          2 * (db.grocery_template_items.filter
            (fun x => x.template_id == tid)).length := by
  obtain ⟨newRows, heq, hrel⟩ := apply_template_ok db tid uid now ht hu hfk
  have hlen : newRows.length = (db.grocery_template_items.filter
      (fun x => x.template_id == tid)).length := hrel.length_eq.symm
  refine ⟨newRows, heq, hlen, ?_, ?_⟩
  · intro r hr
    obtain ⟨ti, _, hR⟩ := forall2_mem_right hrel r hr
    exact ⟨hR.2.2.1, hR.2.1⟩
  · obtain ⟨newRows2, heq2, hrel2⟩ := apply_template_ok
      { db with grocery_items := db.grocery_items ++ newRows }
      tid uid now2 ht hu hfk
    rw [heq2]
    have hlen2 : newRows2.length = (db.grocery_template_items.filter
        (fun x => x.template_id == tid)).length := hrel2.length_eq.symm
    simp [List.length_append]
    omega

/-- Scenario state for template application: user 1; item 1 (Butter,
default quantity "6", integer-quantity flag set); item 2 (Jam, no default,
integer-quantity flag set); template 1 holding one Butter line with no
override and one Jam line with the unparseable override "abc". -/
def applyScenarioDb : DB :=
  { users := [1], stores := [], items :=
      [{ id := 1, name := "Butter", default_quantity := some "6",
         quantity_is_int := true, section_ := none,
         created_at := 0, updated_at := 0 },
       { id := 2, name := "Jam", default_quantity := none,
         quantity_is_int := true, section_ := none,
         created_at := 0, updated_at := 0 }],
    item_stores := [], grocery_items := [],
    grocery_templates :=
      [{ id := 1, name := "T", is_default := false, user_id := 1,
         created_at := 0, updated_at := 0 }],
    grocery_template_items :=
      [{ id := 1, template_id := 1, item_id := 1, quantity := none,
         created_at := 0 },
       { id := 2, template_id := 1, item_id := 2, quantity := some "abc",
         created_at := 0 }],
    providers := [], appointments := [], tasks := [] }

theorem C2_apply_adds_n_rows_witness :
    ∃ newRows,
      apply_template applyScenarioDb 1 1 5 =
        ({ applyScenarioDb with
            grocery_items := applyScenarioDb.grocery_items ++ newRows },
         .ok { template_id := 1, user_id := 1,
               items_added := (applyScenarioDb.grocery_template_items.filter
                 (fun x => x.template_id == 1)).length }) ∧
      newRows.length = (applyScenarioDb.grocery_template_items.filter
        (fun x => x.template_id == 1)).length ∧
      (∀ r ∈ newRows, r.purchased = false ∧ r.user_id = 1) ∧
      ((apply_template
          { applyScenarioDb with
              grocery_items := applyScenarioDb.grocery_items ++ newRows }
          1 1 7).1).grocery_items.length =
        applyScenarioDb.grocery_items.length +
          2 * (applyScenarioDb.grocery_template_items.filter
            (fun x => x.template_id == 1)).length :=
  C2_apply_adds_n_rows applyScenarioDb 1 1 5 7 (by decide) (by decide)
    (by decide)

/-- **C3**: during apply, each inserted grocery row's `quantity` is the
template item's override when present and non-empty, otherwise the item's
`default_quantity`; and `int_quantity` is the integer parse of that final
quantity when the item's `quantity_is_int` flag is set and the parse
succeeds, otherwise `None` — a failed parse never fails the operation
(the scenario conjuncts: no override + default "6" parses to 6, override
"abc" yields `int_quantity = None` while the apply still succeeds). -/
theorem C3_apply_quantity_resolution :
    (∀ (db : DB) (tid uid now : Nat),
      (db.grocery_templates.any (fun t => t.id == tid)) = true →
      uid ∈ db.users →
      (∀ ti ∈ db.grocery_template_items.filter
          (fun x => x.template_id == tid),
        (db.items.find? (fun i => i.id == ti.item_id)).isSome) →
      ∃ newRows,
        apply_template db tid uid now =
          ({ db with grocery_items := db.grocery_items ++ newRows },
           .ok { template_id := tid, user_id := uid,
                 items_added := (db.grocery_template_items.filter
                   (fun x => x.template_id == tid)).length }) ∧
        List.Forall₂ (fun ti r =>
            ∀ item, db.items.find? (fun i => i.id == ti.item_id) =
                some item →
              r.quantity = (if pyTruthy ti.quantity then ti.quantity
                else item.default_quantity) ∧
              r.int_quantity = (if item.quantity_is_int then
                r.quantity.bind pyInt else none))
          (db.grocery_template_items.filter (fun x => x.template_id == tid))
          newRows) ∧
    ((apply_template applyScenarioDb 1 1 5).1.grocery_items.map
        (fun r => (r.quantity, r.int_quantity)) =
      [(some "6", some 6), (some "abc", none)]) ∧
    ((apply_template applyScenarioDb 1 1 5).2 =
      .ok { template_id := 1, user_id := 1, items_added := 2 }) := by
  refine ⟨?_, by decide, by rfl⟩
  intro db tid uid now ht hu hfk
  obtain ⟨newRows, heq, hrel⟩ := apply_template_ok db tid uid now ht hu hfk
  refine ⟨newRows, heq, hrel.imp ?_⟩
  intro ti r hR item hitem
  have hq := (hR.2.2.2.2 item hitem)
  have h1 : r.quantity = (resolveGroceryFields ti.quantity
      item.quantity_is_int item.default_quantity).1 :=
    congrArg Prod.fst hq
  have h2 : r.int_quantity = (resolveGroceryFields ti.quantity
      item.quantity_is_int item.default_quantity).2 :=
    congrArg Prod.snd hq
  constructor
  · rw [h1, resolveGroceryFields_quantity]
  · rw [h2, resolveGroceryFields_int, h1, resolveGroceryFields_quantity]
    rfl

theorem C3_apply_quantity_resolution_witness :
    ∃ newRows,
      apply_template applyScenarioDb 1 1 5 =
        ({ applyScenarioDb with
            grocery_items := applyScenarioDb.grocery_items ++ newRows },
         .ok { template_id := 1, user_id := 1,
               items_added := (applyScenarioDb.grocery_template_items.filter
                 (fun x => x.template_id == 1)).length }) ∧
      List.Forall₂ (fun ti r =>
          ∀ item, applyScenarioDb.items.find?
              (fun i => i.id == ti.item_id) = some item →
            r.quantity = (if pyTruthy ti.quantity then ti.quantity
              else item.default_quantity) ∧
            r.int_quantity = (if item.quantity_is_int then
              r.quantity.bind pyInt else none))
        (applyScenarioDb.grocery_template_items.filter
          (fun x => x.template_id == 1))
        newRows :=
  C3_apply_quantity_resolution.1 applyScenarioDb 1 1 5 (by decide)
    (by decide) (by decide)

/-! ## Store filtering: membership characterization -/

theorem mem_joinRows (ist : List ItemStoreRow) (iid : Nat) (s : Option Nat) :
    s ∈ joinRows ist iid ↔
      ((∀ r ∈ ist, r.item_id ≠ iid) ∧ s = none) ∨
      (∃ r ∈ ist, r.item_id = iid ∧ s = some r.store_id) := by
  unfold joinRows
  cases hf : ist.filter (fun r => r.item_id == iid) with
  | nil =>
    have hemp : ∀ r ∈ ist, r.item_id ≠ iid := by
      intro r hr
      have h2 := List.filter_eq_nil_iff.1 hf r hr
      simpa using h2
    constructor
    · intro hs
      exact Or.inl ⟨hemp, List.mem_singleton.1 hs⟩
    · rintro (⟨_, rfl⟩ | ⟨r, hr, hid, _⟩)
      · exact List.mem_singleton.2 rfl
      · exact absurd hid (hemp r hr)
  | cons a rs =>
    constructor
    · intro hs
      obtain ⟨r, hrmem, rfl⟩ := List.mem_map.1 hs
      have hr2 : r ∈ ist.filter (fun r => r.item_id == iid) := by
        rw [hf]
        exact hrmem
      rw [List.mem_filter] at hr2
      exact Or.inr ⟨r, hr2.1, by simpa using hr2.2, rfl⟩
    · rintro (⟨hemp, rfl⟩ | ⟨r, hr, hid, rfl⟩)
      · exfalso
        have ha : a ∈ ist.filter (fun r => r.item_id == iid) := by
          rw [hf]
          exact List.mem_cons_self a rs
        rw [List.mem_filter] at ha
        exact absurd (by simpa using ha.2) (hemp a ha.1)
      · have hrf : r ∈ ist.filter (fun r => r.item_id == iid) :=
          List.mem_filter.2 ⟨hr, by simpa using hid⟩
        rw [hf] at hrf
        exact List.mem_map.2 ⟨r, hrf, rfl⟩

theorem mem_leftJoinItemStores (items : List ItemRow)
    (ist : List ItemStoreRow) (i : ItemRow) (s : Option Nat) :
    (i, s) ∈ leftJoinItemStores items ist ↔
      i ∈ items ∧ s ∈ joinRows ist i.id := by
  unfold leftJoinItemStores
  rw [List.mem_flatMap]
  constructor
  · rintro ⟨i2, hi2, hp⟩
    obtain ⟨s2, hs2, heq⟩ := List.mem_map.1 hp
    rw [Prod.mk.injEq] at heq
    obtain ⟨rfl, rfl⟩ := heq
    exact ⟨hi2, hs2⟩
  · rintro ⟨hi, hs⟩
    exact ⟨i, hi, List.mem_map.2 ⟨s, hs, rfl⟩⟩

theorem mem_list_items_store (db : DB) (sid : Nat) (i : ItemRow) :
    i ∈ list_items db (some sid) none ↔
      i ∈ db.items ∧
        ((∃ r ∈ db.item_stores, r.item_id = i.id ∧ r.store_id = sid) ∨
         ∀ r ∈ db.item_stores, r.item_id ≠ i.id) := by
  unfold list_items
  rw [List.mem_insertionSort, List.mem_dedup, List.mem_map]
  constructor
  · rintro ⟨p, hp, rfl⟩
    rw [List.mem_filter] at hp
    obtain ⟨hj, hcond⟩ := hp
    obtain ⟨hip, hsp⟩ :=
      (mem_leftJoinItemStores db.items db.item_stores p.1 p.2).1 hj
    refine ⟨hip, ?_⟩
    rw [mem_joinRows] at hsp
    have hcond2 : p.2 = some sid ∨ p.2 = none := by
      simp [storeMatch] at hcond
      tauto
    rcases hcond2 with hps | hps
    · rcases hsp with ⟨_, hnone⟩ | ⟨r, hr, hid, hsome⟩
      · rw [hps] at hnone
        cases hnone
      · rw [hps] at hsome
        injection hsome with hsid
        exact Or.inl ⟨r, hr, hid, hsid.symm⟩
    · rcases hsp with ⟨hemp, _⟩ | ⟨r, _, _, hsome⟩
      · exact Or.inr hemp
      · rw [hps] at hsome
        cases hsome
  · rintro ⟨hi, hcase⟩
    rcases hcase with ⟨r, hr, hid, hsid⟩ | hemp
    · refine ⟨(i, some sid), ?_, rfl⟩
      rw [List.mem_filter]
      refine ⟨(mem_leftJoinItemStores db.items db.item_stores i
        (some sid)).2 ⟨hi, ?_⟩, ?_⟩
      · rw [mem_joinRows]
        exact Or.inr ⟨r, hr, hid, by rw [hsid]⟩
      · simp [storeMatch]
    · refine ⟨(i, none), ?_, rfl⟩
      rw [List.mem_filter]
      refine ⟨(mem_leftJoinItemStores db.items db.item_stores i
        none).2 ⟨hi, ?_⟩, ?_⟩
      · rw [mem_joinRows]
        exact Or.inl ⟨hemp, rfl⟩
      · simp [storeMatch]

theorem list_items_store_nodup (db : DB) (sid : Nat) :
    (list_items db (some sid) none).Nodup := by
  unfold list_items
  exact ((List.perm_insertionSort _ _).symm).nodup (List.nodup_dedup _)

theorem mem_leftJoinGroceryStores (gis : List GroceryItemRow)
    (items : List ItemRow) (ist : List ItemStoreRow)
    (gi : GroceryItemRow) (s : Option Nat) :
    (gi, s) ∈ leftJoinGroceryStores gis items ist ↔
      gi ∈ gis ∧ ∃ i ∈ items, i.id = gi.item_id ∧ s ∈ joinRows ist i.id := by
  unfold leftJoinGroceryStores
  rw [List.mem_flatMap]
  constructor
  · rintro ⟨gi2, hgi2, hp⟩
    rw [List.mem_flatMap] at hp
    obtain ⟨i, hi, hp2⟩ := hp
    rw [List.mem_filter] at hi
    obtain ⟨s2, hs2, heq⟩ := List.mem_map.1 hp2
    rw [Prod.mk.injEq] at heq
    obtain ⟨rfl, rfl⟩ := heq
    exact ⟨hgi2, i, hi.1, by simpa using hi.2, hs2⟩
  · rintro ⟨hgi, i, hi, hid, hs⟩
    refine ⟨gi, hgi, ?_⟩
    rw [List.mem_flatMap]
    exact ⟨i, List.mem_filter.2 ⟨hi, by simpa using hid⟩,
      List.mem_map.2 ⟨s, hs, rfl⟩⟩

theorem mem_list_grocery_items_store (db : DB) (u sid : Nat)
    (gi : GroceryItemRow) :
    gi ∈ list_grocery_items db u (some sid) ↔
      gi ∈ db.grocery_items ∧ gi.user_id = u ∧
        ∃ i ∈ db.items, i.id = gi.item_id ∧
          ((∃ r ∈ db.item_stores, r.item_id = i.id ∧ r.store_id = sid) ∨
           ∀ r ∈ db.item_stores, r.item_id ≠ i.id) := by
  unfold list_grocery_items
  rw [List.mem_insertionSort, List.mem_dedup, List.mem_map]
  constructor
  · rintro ⟨p, hp, rfl⟩
    rw [List.mem_filter] at hp
    obtain ⟨hj, hcond⟩ := hp
    obtain ⟨hgp, i, hi, hid, hsp⟩ :=
      (mem_leftJoinGroceryStores db.grocery_items db.items db.item_stores
        p.1 p.2).1 hj
    have huser : p.1.user_id = u := by
      simp [storeMatch] at hcond
      tauto
    have hcond2 : p.2 = some sid ∨ p.2 = none := by
      simp [storeMatch] at hcond
      tauto
    refine ⟨hgp, huser, i, hi, hid, ?_⟩
    rw [mem_joinRows] at hsp
    rcases hcond2 with hps | hps
    · rcases hsp with ⟨_, hnone⟩ | ⟨r, hr, hid2, hsome⟩
      · rw [hps] at hnone
        cases hnone
      · rw [hps] at hsome
        injection hsome with hsid
        exact Or.inl ⟨r, hr, hid2, hsid.symm⟩
    · rcases hsp with ⟨hemp, _⟩ | ⟨r, _, _, hsome⟩
      · exact Or.inr hemp
      · rw [hps] at hsome
        cases hsome
  · rintro ⟨hgi, huser, i, hi, hid, hcase⟩
    rcases hcase with ⟨r, hr, hid2, hsid⟩ | hemp
    · refine ⟨(gi, some sid), ?_, rfl⟩
      rw [List.mem_filter]
      refine ⟨(mem_leftJoinGroceryStores db.grocery_items db.items
        db.item_stores gi (some sid)).2 ⟨hgi, i, hi, hid, ?_⟩, ?_⟩
      · rw [mem_joinRows]
        exact Or.inr ⟨r, hr, hid2, by rw [hsid]⟩
      · simp [storeMatch, huser]
    · refine ⟨(gi, none), ?_, rfl⟩
      rw [List.mem_filter]
      refine ⟨(mem_leftJoinGroceryStores db.grocery_items db.items
        db.item_stores gi none).2 ⟨hgi, i, hi, hid, ?_⟩, ?_⟩
      · rw [mem_joinRows]
        exact Or.inl ⟨hemp, rfl⟩
      · simp [storeMatch, huser]

theorem list_grocery_items_store_nodup (db : DB) (u sid : Nat) :
    (list_grocery_items db u (some sid)).Nodup := by
  unfold list_grocery_items
  exact ((List.perm_insertionSort _ _).symm).nodup (List.nodup_dedup _)

/-- **C4**: a list filtered by `store_id = X` contains exactly the entries
whose item is associated with store X plus the entries whose item has no
store association at all, with no duplicate rows even when an item matches
through several association rows; entries tied only to other stores are
excluded.  Stated for `list_items` and — under referential integrity of
`grocery_items.item_id` — for a user's `list_grocery_items`. -/
theorem C4_store_filter_union :
    (∀ (db : DB) (sid : Nat) (i : ItemRow),
      i ∈ list_items db (some sid) none ↔
        i ∈ db.items ∧
          ((∃ r ∈ db.item_stores, r.item_id = i.id ∧ r.store_id = sid) ∨
           ∀ r ∈ db.item_stores, r.item_id ≠ i.id)) ∧
    (∀ (db : DB) (sid : Nat), (list_items db (some sid) none).Nodup) ∧
    (∀ (db : DB) (u sid : Nat) (gi : GroceryItemRow),
      (∀ g ∈ db.grocery_items, ∃ i ∈ db.items, i.id = g.item_id) →
      (gi ∈ list_grocery_items db u (some sid) ↔
        gi ∈ db.grocery_items ∧ gi.user_id = u ∧
          ((∃ r ∈ db.item_stores, r.item_id = gi.item_id ∧
              r.store_id = sid) ∨
           ∀ r ∈ db.item_stores, r.item_id ≠ gi.item_id))) ∧
    (∀ (db : DB) (u sid : Nat), (list_grocery_items db u (some sid)).Nodup) := by
  refine ⟨fun db sid i => mem_list_items_store db sid i,
    fun db sid => list_items_store_nodup db sid, ?_,
    fun db u sid => list_grocery_items_store_nodup db u sid⟩
  intro db u sid gi hfk
  rw [mem_list_grocery_items_store]
  constructor
  · rintro ⟨hgi, huser, i, _, hid, hcase⟩
    rw [hid] at hcase
    exact ⟨hgi, huser, hcase⟩
  · rintro ⟨hgi, huser, hcase⟩
    obtain ⟨i, hi, hid⟩ := hfk gi hgi
    rw [← hid] at hcase
    exact ⟨hgi, huser, i, hi, hid, hcase⟩

/-- Scenario state for store filtering: item 1 sold at store 1, item 2
with no store association, item 3 sold only at store 2; one grocery line
per item for user 1. -/
def storeFilterDb : DB :=
  { users := [1],
    stores :=
      [{ id := 1, name := "TraderJoes", created_at := 0, updated_at := 0 },
       { id := 2, name := "WholeFoods", created_at := 0, updated_at := 0 }],
    items :=
      [{ id := 1, name := "Apples", default_quantity := none,
         quantity_is_int := false, section_ := none, created_at := 0,
         updated_at := 0 },
       { id := 2, name := "Bread", default_quantity := none,
         quantity_is_int := false, section_ := none, created_at := 0,
         updated_at := 0 },
       { id := 3, name := "Cheese", default_quantity := none,
         quantity_is_int := false, section_ := none, created_at := 0,
         updated_at := 0 }],
    item_stores :=
      [{ item_id := 1, store_id := 1 }, { item_id := 3, store_id := 2 }],
    grocery_items :=
      [{ id := 1, item_id := 1, user_id := 1, quantity := none,
         int_quantity := none, purchased := false, created_at := 1,
         updated_at := 1 },
       { id := 2, item_id := 2, user_id := 1, quantity := none,
         int_quantity := none, purchased := false, created_at := 2,
         updated_at := 2 },
       { id := 3, item_id := 3, user_id := 1, quantity := none,
         int_quantity := none, purchased := false, created_at := 3,
         updated_at := 3 }],
    grocery_templates := [], grocery_template_items := [], providers := [],
    appointments := [], tasks := [] }

theorem C4_witness :
    ({ id := 3, item_id := 3, user_id := 1, quantity := none,
       int_quantity := none, purchased := false, created_at := 3,
       updated_at := 3 : GroceryItemRow }
        ∈ list_grocery_items storeFilterDb 1 (some 1) ↔
      ({ id := 3, item_id := 3, user_id := 1, quantity := none,
         int_quantity := none, purchased := false, created_at := 3,
         updated_at := 3 : GroceryItemRow } ∈ storeFilterDb.grocery_items ∧
        (1 : Nat) = 1 ∧
        ((∃ r ∈ storeFilterDb.item_stores, r.item_id = 3 ∧ r.store_id = 1) ∨
         ∀ r ∈ storeFilterDb.item_stores, r.item_id ≠ 3))) :=
  C4_store_filter_union.2.2.1 storeFilterDb 1 1
    { id := 3, item_id := 3, user_id := 1, quantity := none,
      int_quantity := none, purchased := false, created_at := 3,
      updated_at := 3 } (by decide)

/-! ## Rollback and check ordering -/

/-- Scenario state for the partial-failure rollback: one item (id 1, name
"Apples") associated with the sole store (id 1); store 2 does not exist. -/
def c5_db : DB :=
  { users := [],
    stores :=
      [{ id := 1, name := "TraderJoes", created_at := 0, updated_at := 0 }],
    items :=
      [{ id := 1, name := "Apples", default_quantity := none,
         quantity_is_int := false, section_ := none, created_at := 0,
         updated_at := 0 }],
    item_stores := [{ item_id := 1, store_id := 1 }],
    grocery_items := [], grocery_templates := [],
    grocery_template_items := [], providers := [], appointments := [],
    tasks := [] }

/-- An update supplying both a field change and a store list whose second
id does not exist. -/
def c5_update : ItemUpdate :=
  { name := some "Pears", default_quantity := none,
    quantity_is_int := none, section_ := none, store_ids := some [1, 2] }

/-- **C5**: when any step of a multi-step update fails, the transaction is
rolled back, so the committed state equals the pre-operation state — in
particular an item update carrying a field change plus a store list whose
second id is missing fails with that store's 404 and leaves the state
untouched, even though the field mutation had already executed inside the
transaction. -/
theorem C5_rollback_restores_state :
    (∀ (db : DB) (item_id : Nat) (u : ItemUpdate) (now : Nat)
        (e : ApiError),
      (update_item db item_id u now).2 = .error e →
      (update_item db item_id u now).1 = db) ∧
    ((update_item c5_db 1 c5_update 5).2 =
      .error (.notFound "Store with id 2 not found")) ∧
    ((update_item c5_db 1 c5_update 5).1 = c5_db) := by
  refine ⟨?_, by rfl, by rfl⟩
  intro db item_id u now e herr
  unfold update_item get_db at herr ⊢
  cases hb : update_item_body db item_id u now with
  | ok v =>
    rw [hb] at herr
    cases herr
  | error e2 =>
    rfl

theorem C5_witness : (update_item c5_db 1 c5_update 5).1 = c5_db :=
  C5_rollback_restores_state.1 c5_db 1 c5_update 5
    (.notFound "Store with id 2 not found") (by rfl)

/-- Scenario state for check ordering: an item named "Apples" exists, no
stores exist. -/
def c6_db : DB :=
  { users := [], stores := [],
    items :=
      [{ id := 1, name := "Apples", default_quantity := none,
         quantity_is_int := false, section_ := none, created_at := 0,
         updated_at := 0 }],
    item_stores := [], grocery_items := [], grocery_templates := [],
    grocery_template_items := [], providers := [], appointments := [],
    tasks := [] }

/-- A create request violating both rules at once: duplicate name and a
nonexistent store id. -/
def c6_input : ItemCreate :=
  { name := "Apples", default_quantity := none, quantity_is_int := false,
    section_ := none, store_ids := [5] }

/-- **C6, counterexample**: on an input violating both the uniqueness rule
(duplicate item name) and the existence rule (store id 5 does not exist),
`create_item` reports the *uniqueness* Conflict — not the error of the
claimed existence-before-uniqueness order. -/
theorem C6_counterexample :
    (∀ s ∈ c6_db.stores, s.id ≠ 5) ∧
    (∃ i ∈ c6_db.items, i.name = "Apples") ∧
    ((create_item c6_db c6_input 7).2 =
      .error (.conflict "Item with name 'Apples' already exists")) := by
  refine ⟨by decide, by decide, by rfl⟩

/-- **C6, amended**: every check still precedes the commit, but the order
is per-operation, not uniform: `create_item` checks name uniqueness before
store-id existence, so an input violating both reports the duplicate-name
Conflict (with the state unchanged); `update_store` checks the addressed
store's existence first, so updating a missing store reports NotFound no
matter what name is supplied. -/
theorem C6_check_order_amended :
    (∀ (db : DB) (item : ItemCreate) (now : Nat),
      (∃ i ∈ db.items, i.name = item.name) →
      (create_item db item now).2 =
          .error (.conflict
            ("Item with name \x27" ++ item.name ++ "\x27 already exists")) ∧
        (create_item db item now).1 = db) ∧
    (∀ (db : DB) (store_id : Nat) (u : StoreUpdate) (now : Nat),
      (∀ s ∈ db.stores, s.id ≠ store_id) →
      (update_store db store_id u now).2 =
          .error (.notFound
            ("Store with id " ++ toString store_id ++ " not found")) ∧
        (update_store db store_id u now).1 = db) := by
  constructor
  · intro db item now hex
    have hcond : (db.items.any (fun i => i.name == item.name)) = true := by
      rw [List.any_eq_true]
      obtain ⟨i, hi, hn⟩ := hex
      exact ⟨i, hi, by simp [hn]⟩
    constructor <;>
      (simp [create_item, get_db, create_item_body, hcond]; try rfl)
  · intro db store_id u now hnone
    have hcond : (db.stores.any (fun s => s.id == store_id)) = false := by
      rw [Bool.eq_false_iff]
      intro hany
      rw [List.any_eq_true] at hany
      obtain ⟨s, hs, he⟩ := hany
      exact hnone s hs (by simpa using he)
    constructor <;>
      (simp [update_store, get_db, update_store_body, hcond]; try rfl)

theorem C6_witness :
    ((create_item c6_db c6_input 7).2 =
        .error (.conflict
          ("Item with name \x27" ++ c6_input.name ++
            "\x27 already exists"))) ∧
      (create_item c6_db c6_input 7).1 = c6_db :=
  C6_check_order_amended.1 c6_db c6_input 7 (by decide)

/-! ## Delete policies for stores and providers -/

/-- **C7**: deleting an existing Store (resp. Provider) with dependents
(`item_stores` resp. `appointments` rows) fails with Conflict, the
dependent count appearing in the message, and commits nothing; with zero
dependents it succeeds and removes exactly that row. -/
theorem C7_delete_block_or_remove :
    (∀ (db : DB) (store_id : Nat),
      (db.stores.any (fun s => s.id == store_id)) = true →
      0 < (db.item_stores.filter (fun r => r.store_id == store_id)).length →
      delete_store db store_id =
        (db, .error (.conflict ("Cannot delete store: " ++
          toString (db.item_stores.filter
            (fun r => r.store_id == store_id)).length ++
          " items reference this store")))) ∧
    (∀ (db : DB) (store_id : Nat),
      (db.stores.any (fun s => s.id == store_id)) = true →
      (db.item_stores.filter (fun r => r.store_id == store_id)).length = 0 →
      delete_store db store_id =
        ({ db with stores := db.stores.filter (fun s => s.id != store_id) },
         .ok ())) ∧
    (∀ (db : DB) (provider_id : Nat),
      (db.providers.any (fun p => p.id == provider_id)) = true →
      0 < (db.appointments.filter
        (fun a => a.provider_id == some provider_id)).length →
      delete_provider db provider_id =
        (db, .error (.conflict ("Cannot delete provider: " ++
          toString (db.appointments.filter
            (fun a => a.provider_id == some provider_id)).length ++
          " appointments reference this provider")))) ∧
    (∀ (db : DB) (provider_id : Nat),
      (db.providers.any (fun p => p.id == provider_id)) = true →
      (db.appointments.filter
        (fun a => a.provider_id == some provider_id)).length = 0 →
      delete_provider db provider_id =
        ({ db with
            providers := db.providers.filter (fun p => p.id != provider_id) },
         .ok ())) := by
  refine ⟨?_, ?_, ?_, ?_⟩
  · intro db store_id hex hpos
    simp [delete_store, get_db, delete_store_body, hex, hpos]
    rfl
  · intro db store_id hex hzero
    simp [delete_store, get_db, delete_store_body, hex, hzero]
  · intro db provider_id hex hpos
    simp [delete_provider, get_db, delete_provider_body, hex, hpos]
    rfl
  · intro db provider_id hex hzero
    simp [delete_provider, get_db, delete_provider_body, hex, hzero]

/-- Scenario state for delete policies: store 1 referenced by one item,
store 2 unreferenced; provider 1 referenced by one appointment, provider 2
unreferenced. -/
def c7_db : DB :=
  { users := [1],
    stores :=
      [{ id := 1, name := "TraderJoes", created_at := 0, updated_at := 0 },
       { id := 2, name := "WholeFoods", created_at := 0, updated_at := 0 }],
    items :=
      [{ id := 1, name := "Apples", default_quantity := none,
         quantity_is_int := false, section_ := none, created_at := 0,
         updated_at := 0 }],
    item_stores := [{ item_id := 1, store_id := 1 }],
    grocery_items := [], grocery_templates := [],
    grocery_template_items := [],
    providers :=
      [{ id := 1, name := "Dr. Smith", phone := none, email := none,
         website := none, address := none, info := none, created_at := 0,
         updated_at := 0 },
       { id := 2, name := "Dr. Jones", phone := none, email := none,
         website := none, address := none, info := none, created_at := 0,
         updated_at := 0 }],
    appointments :=
      [{ id := 1, title := "Checkup", date := 10, type_ := "medical",
         notes := none, provider_id := some 1, patient_name := none,
         created_by := 1, created_at := 0, updated_at := 0 }],
    tasks := [] }

theorem C7_witness :
    (delete_store c7_db 1 =
      (c7_db, .error (.conflict ("Cannot delete store: " ++
        toString (c7_db.item_stores.filter
          (fun r => r.store_id == 1)).length ++
        " items reference this store")))) ∧
    (delete_store c7_db 2 =
      ({ c7_db with stores := c7_db.stores.filter (fun s => s.id != 2) },
       .ok ())) ∧
    (delete_provider c7_db 1 =
      (c7_db, .error (.conflict ("Cannot delete provider: " ++
        toString (c7_db.appointments.filter
          (fun a => a.provider_id == some 1)).length ++
        " appointments reference this provider")))) ∧
    (delete_provider c7_db 2 =
      ({ c7_db with
          providers := c7_db.providers.filter (fun p => p.id != 2) },
       .ok ())) :=
  ⟨C7_delete_block_or_remove.1 c7_db 1 (by decide) (by decide),
   C7_delete_block_or_remove.2.1 c7_db 2 (by decide) (by decide),
   C7_delete_block_or_remove.2.2.1 c7_db 1 (by decide) (by decide),
   C7_delete_block_or_remove.2.2.2 c7_db 2 (by decide) (by decide)⟩

/-! ## Task list ordering -/

/-- The ordering described by the spec: completed ascending (incomplete
first), then due date ascending with NULLs after all non-NULL dates, then
`created_at` descending as the final tiebreak. -/
def specTaskOrder (a b : TaskRow) : Prop :=
  (a.completed = false ∧ b.completed = true) ∨
    (a.completed = b.completed ∧
      (dueBefore a.due_date b.due_date = true ∨
        (a.due_date = b.due_date ∧ b.created_at ≤ a.created_at)))

theorem taskLE_iff (a b : TaskRow) :
    taskLE a b = true ↔ specTaskOrder a b := by
  unfold taskLE specTaskOrder
  cases ha : a.completed <;> cases hb : b.completed <;> simp

theorem taskLE_total (a b : TaskRow) :
    taskLE a b = true ∨ taskLE b a = true := by
  unfold taskLE dueBefore
  cases ha : a.completed <;> cases hb : b.completed <;>
    cases hda : a.due_date <;> cases hdb : b.due_date <;>
      simp_all <;> omega

theorem taskLE_trans (a b c : TaskRow) (h1 : taskLE a b = true)
    (h2 : taskLE b c = true) : taskLE a c = true := by
  unfold taskLE dueBefore at h1 h2 ⊢
  cases ha : a.completed <;> cases hb : b.completed <;>
    cases hc : c.completed <;>
      cases hda : a.due_date <;> cases hdb : b.due_date <;>
        cases hdc : c.due_date <;> simp_all <;> omega

instance taskLE_isTotal : IsTotal TaskRow (fun a b => taskLE a b = true) :=
  ⟨taskLE_total⟩

instance taskLE_isTrans : IsTrans TaskRow (fun a b => taskLE a b = true) :=
  ⟨taskLE_trans⟩

/-- Scenario state for task ordering: one completed task (id 1), an
incomplete task due 2025-11-15 (id 2), one due 2025-12-01 (id 3), and one
with no due date (id 4), with distinct creation times. -/
def c8_db : DB :=
  { users := [], stores := [], items := [], item_stores := [],
    grocery_items := [], grocery_templates := [],
    grocery_template_items := [], providers := [], appointments := [],
    tasks :=
      [{ id := 1, title := "Done one", category := "household",
         completed := true, due_date := some 20251001, assigned_to := none,
         created_at := 1, updated_at := 1 },
       { id := 2, title := "Mid November", category := "household",
         completed := false, due_date := some 20251115,
         assigned_to := none, created_at := 2, updated_at := 2 },
       { id := 3, title := "December", category := "household",
         completed := false, due_date := some 20251201,
         assigned_to := none, created_at := 3, updated_at := 3 },
       { id := 4, title := "Whenever", category := "household",
         completed := false, due_date := none, assigned_to := none,
         created_at := 4, updated_at := 4 }] }

/-- **C8**: `list_tasks` returns a permutation of the (filtered) task
rows sorted by completed ascending, then due date ascending with NULLs
last, then `created_at` descending; on the scenario of three incomplete
tasks (due 2025-11-15, 2025-12-01, no due date) and one completed task,
the order is exactly [11-15, 12-01, no-due-date, completed]. -/
theorem C8_task_list_ordering :
    (∀ (db : DB) (a : Option Nat) (c : Option String),
      (list_tasks db a c).Perm (db.tasks.filter fun t =>
        (a == none || t.assigned_to == a) &&
          (c == none || t.category == c.getD "")) ∧
      (list_tasks db a c).Pairwise specTaskOrder) ∧
    (list_tasks c8_db none none).map (fun t => t.id) = [2, 3, 4, 1] := by
  refine ⟨?_, by decide⟩
  intro db a c
  constructor
  · exact List.perm_insertionSort _ _
  · have hs := List.sorted_insertionSort (fun a b => taskLE a b = true)
      (db.tasks.filter fun t =>
        (a == none || t.assigned_to == a) &&
          (c == none || t.category == c.getD ""))
    exact hs.imp (fun h => (taskLE_iff _ _).1 h)

/-! ## Partial-update semantics -/

theorem get_db_ok {α : Type} (body : Except ApiError (DB × α)) (db : DB)
    (a : α) (h : (get_db body db).2 = .ok a) :
    ∃ db2, body = .ok (db2, a) := by
  cases body with
  | ok p =>
    refine ⟨p.1, ?_⟩
    have h2 : p.2 = a := by simpa [get_db] using h
    rw [← h2]
  | error e => simp [get_db] at h

theorem find_in_update_map {α : Type} (l : List α) (p : α → Bool)
    (f : α → α) (row : α)
    (hfind : (l.map fun t => if p t then f t else t).find? p = some row) :
    ∃ t0 ∈ l, p t0 = true ∧ row = f t0 := by
  have hmem := List.mem_of_find?_eq_some hfind
  have hp := List.find?_some hfind
  obtain ⟨t0, ht0, heq⟩ := List.mem_map.1 hmem
  by_cases h : p t0 = true
  · refine ⟨t0, ht0, h, ?_⟩
    rw [← heq]
    simp [h]
  · rw [if_neg h] at heq
    rw [heq] at h
    exact absurd hp h

theorem update_task_ok_shape (db : DB) (tid : Nat) (u : TaskUpdate)
    (now : Nat) (row : TaskRow)
    (h : (update_task db tid u now).2 = .ok row) :
    ∃ t0 ∈ db.tasks, (t0.id == tid) = true ∧
      row = applyTaskFields u now t0 := by
  obtain ⟨db2, hbody⟩ := get_db_ok _ db row h
  unfold update_task_body at hbody
  cases hany : db.tasks.any (fun t => t.id == tid) with
  | false => simp [hany] at hbody
  | true =>
    have hwrite : task_update_write db tid u now = .ok (db2, row) := by
      cases huid : u.assigned_to with
      | none => simpa [hany, huid] using hbody
      | some uid =>
        by_cases hc : uid ∈ db.users
        · simpa [hany, huid, hc] using hbody
        · simp [hany, huid, hc] at hbody
    simp only [task_update_write] at hwrite
    cases hfind : (db.tasks.map fun t =>
        if t.id == tid then applyTaskFields u now t else t).find?
        (fun t => t.id == tid) with
    | none =>
      rw [hfind] at hwrite
      cases hwrite
    | some row2 =>
      rw [hfind] at hwrite
      simp only [Except.ok.injEq, Prod.mk.injEq] at hwrite
      rw [← hwrite.2]
      exact find_in_update_map db.tasks (fun t => t.id == tid)
        (applyTaskFields u now) row2 hfind

theorem update_store_ok_shape (db : DB) (sid : Nat) (nm : String)
    (now : Nat) (row : StoreRow)
    (h : (update_store db sid { name := some nm } now).2 = .ok row) :
    ∃ s0 ∈ db.stores, (s0.id == sid) = true ∧
      row = { s0 with name := nm, updated_at := now } := by
  obtain ⟨db2, hbody⟩ := get_db_ok _ db row h
  unfold update_store_body at hbody
  cases hany : db.stores.any (fun s => s.id == sid) with
  | false => simp [hany] at hbody
  | true =>
    by_cases hdup : (db.stores.any (fun s => s.name == nm && s.id != sid))
        = true
    · simp [hany, hdup] at hbody
    · have hr : read_back_store (db.stores.map fun s =>
          if s.id == sid then { s with name := nm, updated_at := now }
          else s) db sid = .ok (db2, row) := by
        simpa [hany, hdup] using hbody
      simp only [read_back_store] at hr
      cases hfind : (db.stores.map fun s =>
          if s.id == sid then { s with name := nm, updated_at := now }
          else s).find? (fun s => s.id == sid) with
      | none =>
        rw [hfind] at hr
        cases hr
      | some row2 =>
        rw [hfind] at hr
        simp only [Except.ok.injEq, Prod.mk.injEq] at hr
        rw [← hr.2]
        exact find_in_update_map db.stores (fun s => s.id == sid)
          (fun s => { s with name := nm, updated_at := now }) row2 hfind

theorem update_provider_ok_shape (db : DB) (pid : Nat)
    (u : ProviderUpdate) (now : Nat) (row : ProviderRow)
    (h : (update_provider db pid u now).2 = .ok row) :
    ∃ p0 ∈ db.providers, (p0.id == pid) = true ∧
      row = applyProviderFields u now p0 := by
  obtain ⟨db2, hbody⟩ := get_db_ok _ db row h
  unfold update_provider_body at hbody
  cases hany : db.providers.any (fun p => p.id == pid) with
  | false => simp [hany] at hbody
  | true =>
    simp only [hany, Bool.not_true, Bool.false_eq_true, if_false] at hbody
    cases hfind : (db.providers.map fun p =>
        if p.id == pid then applyProviderFields u now p else p).find?
        (fun p => p.id == pid) with
    | none =>
      rw [hfind] at hbody
      cases hbody
    | some row2 =>
      rw [hfind] at hbody
      simp only [Except.ok.injEq, Prod.mk.injEq] at hbody
      rw [← hbody.2]
      exact find_in_update_map db.providers (fun p => p.id == pid)
        (applyProviderFields u now) row2 hfind

theorem update_appointment_ok_shape (db : DB) (aid : Nat)
    (u : AppointmentUpdate) (now : Nat) (row : AppointmentRow)
    (h : (update_appointment db aid u now).2 = .ok row) :
    ∃ a0 ∈ db.appointments, (a0.id == aid) = true ∧
      row = applyAppointmentFields u now a0 := by
  obtain ⟨db2, hbody⟩ := get_db_ok _ db row h
  unfold update_appointment_body at hbody
  cases hany : db.appointments.any (fun a => a.id == aid) with
  | false => simp [hany] at hbody
  | true =>
    have hwrite : appointment_update_write db aid u now = .ok (db2, row) := by
      cases hpid : u.provider_id with
      | none => simpa [hany, hpid] using hbody
      | some pid =>
        by_cases hc : (db.providers.any (fun p => p.id == pid)) = true
        · simpa [hany, hpid, hc] using hbody
        · simp [hany, hpid, hc] at hbody
    simp only [appointment_update_write] at hwrite
    cases hfind : (db.appointments.map fun a =>
        if a.id == aid then applyAppointmentFields u now a else a).find?
        (fun a => a.id == aid) with
    | none =>
      rw [hfind] at hwrite
      cases hwrite
    | some row2 =>
      rw [hfind] at hwrite
      simp only [Except.ok.injEq, Prod.mk.injEq] at hwrite
      rw [← hwrite.2]
      exact find_in_update_map db.appointments (fun a => a.id == aid)
        (applyAppointmentFields u now) row2 hfind

/-- The empty task partial: no field supplied. -/
def emptyTaskUpdate : TaskUpdate :=
  { title := none, category := none, completed := none, due_date := none,
    assigned_to := none }

theorem update_task_ok_state (db : DB) (tid : Nat) (u : TaskUpdate)
    (now : Nat) (db2 : DB) (row : TaskRow)
    (h : update_task_body db tid u now = .ok (db2, row)) :
    db2 = { db with tasks := db.tasks.map fun t =>
      if t.id == tid then applyTaskFields u now t else t } := by
  unfold update_task_body at h
  cases hany : db.tasks.any (fun t => t.id == tid) with
  | false => simp [hany] at h
  | true =>
    have hwrite : task_update_write db tid u now = .ok (db2, row) := by
      cases huid : u.assigned_to with
      | none => simpa [hany, huid] using h
      | some uid =>
        by_cases hc : uid ∈ db.users
        · simpa [hany, huid, hc] using h
        · simp [hany, huid, hc] at h
    simp only [task_update_write] at hwrite
    cases hfind : (db.tasks.map fun t =>
        if t.id == tid then applyTaskFields u now t else t).find?
        (fun t => t.id == tid) with
    | none =>
      rw [hfind] at hwrite
      cases hwrite
    | some row2 =>
      rw [hfind] at hwrite
      simp only [Except.ok.injEq, Prod.mk.injEq] at hwrite
      exact hwrite.1.symm

theorem map_applyTaskFields_empty (db : DB) (tid now : Nat) :
    (db.tasks.map fun t =>
      if t.id == tid then applyTaskFields emptyTaskUpdate now t else t) =
      db.tasks := by
  have hfun : ∀ t ∈ db.tasks,
      (if t.id == tid then applyTaskFields emptyTaskUpdate now t else t) =
        (fun t => t) t := by
    intro t _
    by_cases h : (t.id == tid) = true <;>
      simp [h, applyTaskFields, emptyTaskUpdate]
  rw [List.map_congr_left hfun]
  simp

theorem update_task_empty (db : DB) (tid now : Nat) :
    (update_task db tid emptyTaskUpdate now).1 = db := by
  unfold update_task get_db
  cases hb : update_task_body db tid emptyTaskUpdate now with
  | error e => rfl
  | ok p =>
    show p.1 = db
    have hstate := update_task_ok_state db tid emptyTaskUpdate now p.1 p.2 hb
    rw [hstate, map_applyTaskFields_empty]

theorem update_store_none_state (db : DB) (sid now : Nat) (db2 : DB)
    (row : StoreRow) (u : StoreUpdate) (hn : u.name = none)
    (h : update_store_body db sid u now = .ok (db2, row)) : db2 = db := by
  unfold update_store_body at h
  cases hany : db.stores.any (fun s => s.id == sid) with
  | false => simp [hany] at h
  | true =>
    simp only [hany, hn, Bool.not_true, Bool.false_eq_true, if_false,
      read_back_store] at h
    cases hfind : db.stores.find? (fun s => s.id == sid) with
    | none =>
      rw [hfind] at h
      cases h
    | some r =>
      rw [hfind] at h
      simp only [Except.ok.injEq, Prod.mk.injEq] at h
      rw [← h.1]

theorem update_store_empty (db : DB) (sid now : Nat) :
    (update_store db sid { name := none } now).1 = db := by
  unfold update_store get_db
  cases hb : update_store_body db sid { name := none } now with
  | error e => rfl
  | ok p =>
    show p.1 = db
    exact update_store_none_state db sid now p.1 p.2 { name := none } rfl hb

/-- **C9**: an update whose partial payload contains no field key leaves
the committed state — including `updated_at` — completely unchanged,
whereas a partial with at least one field key always stamps `updated_at`
with the current timestamp on success, even when the supplied values equal
the stored ones (no value comparison happens).  Stated for tasks and
stores, the claim's cited entities. -/
theorem C9_updated_at_policy :
    (∀ (db : DB) (task_id now : Nat),
      (update_task db task_id emptyTaskUpdate now).1 = db) ∧
    (∀ (db : DB) (store_id now : Nat),
      (update_store db store_id { name := none } now).1 = db) ∧
    (∀ (db : DB) (task_id now : Nat) (u : TaskUpdate) (row : TaskRow),
      (u.title.isSome || u.category.isSome || u.completed.isSome ||
        u.due_date.isSome || u.assigned_to.isSome) = true →
      (update_task db task_id u now).2 = .ok row →
      row.updated_at = now) ∧
    (∀ (db : DB) (store_id now : Nat) (nm : String) (row : StoreRow),
      (update_store db store_id { name := some nm } now).2 = .ok row →
      row.updated_at = now) := by
  refine ⟨update_task_empty, update_store_empty, ?_, ?_⟩
  · intro db tid now u row hf h
    obtain ⟨t0, _, _, hrow⟩ := update_task_ok_shape db tid u now row h
    rw [hrow]
    simp [applyTaskFields, hf]
  · intro db sid now nm row h
    obtain ⟨s0, _, _, hrow⟩ := update_store_ok_shape db sid nm now row h
    rw [hrow]

/-- Scenario state for update-timestamp semantics: one task whose stored
title already equals the value the update will supply. -/
def c9_db : DB :=
  { users := [], stores := [], items := [], item_stores := [],
    grocery_items := [], grocery_templates := [],
    grocery_template_items := [], providers := [], appointments := [],
    tasks :=
      [{ id := 1, title := "Laundry", category := "household",
         completed := false, due_date := none, assigned_to := none,
         created_at := 0, updated_at := 3 }] }

theorem C9_witness :
    ({ id := 1, title := "Laundry", category := "household",
       completed := false, due_date := none, assigned_to := none,
       created_at := 0, updated_at := 9 } : TaskRow).updated_at = 9 :=
  C9_updated_at_policy.2.2.1 c9_db 1 9
    { title := some "Laundry", category := none, completed := none,
      due_date := none, assigned_to := none }
    { id := 1, title := "Laundry", category := "household",
      completed := false, due_date := none, assigned_to := none,
      created_at := 0, updated_at := 9 } (by decide) (by rfl)

/-- **C10**: a partial update can never clear an already-populated
optional field back to NULL: a `None` in the payload means "not provided",
so every optional field of the committed row equals the supplied value
when one was supplied and the pre-update value otherwise.  Stated for
appointments (`provider_id`, `notes`, `patient_name`), tasks (`due_date`,
`assigned_to`) and providers (`phone`, `email`, `website`, `address`,
`info`). -/
theorem C10_partial_update_never_clears :
    (∀ (db : DB) (aid now : Nat) (u : AppointmentUpdate)
        (row : AppointmentRow),
      (update_appointment db aid u now).2 = .ok row →
      ∃ a0 ∈ db.appointments, a0.id = aid ∧
        row.provider_id = u.provider_id.or a0.provider_id ∧
        row.notes = u.notes.or a0.notes ∧
        row.patient_name = u.patient_name.or a0.patient_name ∧
        (row.provider_id = none → a0.provider_id = none)) ∧
    (∀ (db : DB) (tid now : Nat) (u : TaskUpdate) (row : TaskRow),
      (update_task db tid u now).2 = .ok row →
      ∃ t0 ∈ db.tasks, t0.id = tid ∧
        row.due_date = u.due_date.or t0.due_date ∧
        row.assigned_to = u.assigned_to.or t0.assigned_to ∧
        (row.due_date = none → t0.due_date = none)) ∧
    (∀ (db : DB) (pid now : Nat) (u : ProviderUpdate) (row : ProviderRow),
      (update_provider db pid u now).2 = .ok row →
      ∃ p0 ∈ db.providers, p0.id = pid ∧
        row.phone = u.phone.or p0.phone ∧
        row.email = u.email.or p0.email ∧
        row.website = u.website.or p0.website ∧
        row.address = u.address.or p0.address ∧
        row.info = u.info.or p0.info ∧
        (row.phone = none → p0.phone = none)) := by
  refine ⟨?_, ?_, ?_⟩
  · intro db aid now u row h
    obtain ⟨a0, hmem, hid, hrow⟩ :=
      update_appointment_ok_shape db aid u now row h
    have hp : row.provider_id = u.provider_id.or a0.provider_id ∧
        row.notes = u.notes.or a0.notes ∧
        row.patient_name = u.patient_name.or a0.patient_name := by
      by_cases hf : (u.title.isSome || u.date.isSome || u.type_.isSome ||
          u.notes.isSome || u.provider_id.isSome ||
          u.patient_name.isSome) = true
      · rw [hrow]
        simp [applyAppointmentFields, hf]
      · rw [Bool.not_eq_true] at hf
        simp only [Bool.or_eq_false_iff] at hf
        obtain ⟨⟨⟨⟨⟨ht, hd⟩, hty⟩, hn⟩, hpid⟩, hpn⟩ := hf
        have h4 : u.notes = none := by simpa using hn
        have h5 : u.provider_id = none := by simpa using hpid
        have h6 : u.patient_name = none := by simpa using hpn
        rw [hrow]
        simp [applyAppointmentFields, ht, hd, hty, h4, h5, h6]
    refine ⟨a0, hmem, by simpa using hid, hp.1, hp.2.1, hp.2.2, ?_⟩
    intro hnone
    rw [hnone] at hp
    exact (Option.or_eq_none.1 hp.1.symm).2
  · intro db tid now u row h
    obtain ⟨t0, hmem, hid, hrow⟩ := update_task_ok_shape db tid u now row h
    have hp : row.due_date = u.due_date.or t0.due_date ∧
        row.assigned_to = u.assigned_to.or t0.assigned_to := by
      by_cases hf : (u.title.isSome || u.category.isSome ||
          u.completed.isSome || u.due_date.isSome ||
          u.assigned_to.isSome) = true
      · rw [hrow]
        simp [applyTaskFields, hf]
      · rw [Bool.not_eq_true] at hf
        simp only [Bool.or_eq_false_iff] at hf
        obtain ⟨⟨⟨⟨ht, hc⟩, hcm⟩, hd⟩, ha⟩ := hf
        have h4 : u.due_date = none := by simpa using hd
        have h5 : u.assigned_to = none := by simpa using ha
        rw [hrow]
        simp [applyTaskFields, ht, hc, hcm, h4, h5]
    refine ⟨t0, hmem, by simpa using hid, hp.1, hp.2, ?_⟩
    intro hnone
    rw [hnone] at hp
    exact (Option.or_eq_none.1 hp.1.symm).2
  · intro db pid now u row h
    obtain ⟨p0, hmem, hid, hrow⟩ :=
      update_provider_ok_shape db pid u now row h
    have hp : row.phone = u.phone.or p0.phone ∧
        row.email = u.email.or p0.email ∧
        row.website = u.website.or p0.website ∧
        row.address = u.address.or p0.address ∧
        row.info = u.info.or p0.info := by
      by_cases hf : (u.name.isSome || u.phone.isSome || u.email.isSome ||
          u.website.isSome || u.address.isSome || u.info.isSome) = true
      · rw [hrow]
        simp [applyProviderFields, hf]
      · rw [Bool.not_eq_true] at hf
        simp only [Bool.or_eq_false_iff] at hf
        obtain ⟨⟨⟨⟨⟨hn, hph⟩, hem⟩, hw⟩, had⟩, hin⟩ := hf
        have h2 : u.phone = none := by simpa using hph
        have h3 : u.email = none := by simpa using hem
        have h4 : u.website = none := by simpa using hw
        have h5 : u.address = none := by simpa using had
        have h6 : u.info = none := by simpa using hin
        rw [hrow]
        simp [applyProviderFields, hn, h2, h3, h4, h5, h6]
    refine ⟨p0, hmem, by simpa using hid, hp.1, hp.2.1, hp.2.2.1,
      hp.2.2.2.1, hp.2.2.2.2, ?_⟩
    intro hnone
    rw [hnone] at hp
    exact (Option.or_eq_none.1 hp.1.symm).2

/-- Scenario state for null-clearing: one appointment whose `provider_id`
and `notes` are populated. -/
def c10_db : DB :=
  { users := [1], stores := [], items := [], item_stores := [],
    grocery_items := [], grocery_templates := [],
    grocery_template_items := [],
    providers :=
      [{ id := 1, name := "Dr. Smith", phone := none, email := none,
         website := none, address := none, info := none, created_at := 0,
         updated_at := 0 }],
    appointments :=
      [{ id := 1, title := "Checkup", date := 10, type_ := "medical",
         notes := some "bring records", provider_id := some 1,
         patient_name := none, created_by := 1, created_at := 0,
         updated_at := 0 }],
    tasks := [] }

/-- A title-only appointment update; all optional payload fields absent. -/
def c10_update : AppointmentUpdate :=
  { title := some "Checkup 2", date := none, type_ := none, notes := none,
    provider_id := none, patient_name := none }

/-- The row `update_appointment` commits on `c10_db` with `c10_update`. -/
def c10_row : AppointmentRow :=
  { id := 1, title := "Checkup 2", date := 10, type_ := "medical",
    notes := some "bring records", provider_id := some 1,
    patient_name := none, created_by := 1, created_at := 0,
    updated_at := 9 }

theorem C10_witness :
    ∃ a0 ∈ c10_db.appointments, a0.id = 1 ∧
      c10_row.provider_id = c10_update.provider_id.or a0.provider_id ∧
      c10_row.notes = c10_update.notes.or a0.notes ∧
      c10_row.patient_name = c10_update.patient_name.or a0.patient_name ∧
      (c10_row.provider_id = none → a0.provider_id = none) :=
  C10_partial_update_never_clears.1 c10_db 1 9 c10_update c10_row (by rfl)

end Household
